import Mathlib

/-!
Verification development for the lease lifecycle engine of the casa-viva
property-rental backend (src/app/modules/lease/lease.controller.js and
src/app/modules/lease/lease.model.js).

The controllers are Express handlers over a Mongoose document store.  We embed
them shallowly as pure functions on a Lease record:

* A controller invocation is a function from the looked-up lease (plus the
  request parameters and the current time, all made explicit) to
  Except LeaseErr Lease.  The findOne query filters of the source become the
  initial error checks of the function; an AppError throw becomes
  Except.error (LeaseErr.app code msg).
* Persistence semantics: a controller that throws never reaches save(), so an
  error result carries no state; only an ok result is a persisted lease.
* Mongoose save() first runs schema validation (enum and min validators), then
  the user pre-save hook of lease.model.js, then writes.  We model this as
  validateLease followed by preSaveHook.  (The hook only ever writes
  enum-valid values, so the relative order of hook and validation does not
  affect any result proved here.)
* JavaScript Date values are modelled as Int milliseconds; calendar arithmetic
  (setFullYear, setDate) is abstracted to fixed-length day/year offsets, which
  no theorem below depends on.  Number fields are modelled as Int.
* Schema paths that no controller reads and no claim mentions
  (application.screeningResults, application.documents, inspection damages and
  periodic inspections, paymentSettings, maintenanceTerms, the opaque terms
  bag, attachment lists) are omitted from the record.  Writes the schema
  silently drops under strict mode (moveIn.notes, moveIn.condition,
  renewal.acceptedAt / declinedAt) are likewise not part of persisted state
  and are omitted.
-/

namespace CasaViva

/-- One populated e-signature slot (signatures.landlord / signatures.tenant in
lease.model.js).  A slot is modelled as Option SignatureRecord: a populated
record always carries its signedAt, which is exactly the presence test
signatures[role]?.signedAt used by the controllers. -/
structure SignatureRecord where
  signedAt : Int
  signatureType : String
  dataUrl : String
  typedText : Option String
  ipAddress : String
  userAgent : String
deriving Repr, DecidableEq

/-- The two signature slots of a lease. -/
structure Signatures where
  landlord : Option SignatureRecord
  tenant : Option SignatureRecord
deriving Repr, DecidableEq

/-- One statusHistory entry ({status, changedBy, reason, changedAt}). -/
structure HistoryEntry where
  status : String
  changedBy : String
  reason : String
  changedAt : Int
deriving Repr, DecidableEq

/-- One messages entry ({from, message, sentAt, readBy}); the source field
name from is a Lean keyword, hence fromUser. -/
structure Message where
  fromUser : String
  message : String
  sentAt : Int
  readBy : List String
deriving Repr, DecidableEq

/-- One requestedChanges entry. -/
structure RequestedChange where
  requestedBy : String
  changes : String
  requestedAt : Int
  resolved : Bool
  resolvedAt : Option Int
  resolutionNotes : Option String
deriving Repr, DecidableEq

/-- One notices entry. -/
structure Notice where
  noticeType : String
  givenBy : String
  givenAt : Int
  effectiveDate : Int
  reason : Option String
  document : Option String
  acknowledged : Bool
  acknowledgedAt : Option Int
deriving Repr, DecidableEq

/-- One depositTransactions ledger entry ({amount, type, date, description,
proof}); the source field name type is written txType. -/
structure DepositTransaction where
  amount : Int
  txType : String
  date : Int
  description : Option String
  proof : Option String
deriving Repr, DecidableEq

/-- inspections.moveIn. -/
structure MoveInInspection where
  scheduledAt : Option Int
  conductedAt : Option Int
  conductedBy : Option String
  report : Option String
  photos : List String
  signedByLandlord : Bool
  signedByTenant : Bool
  signedAt : Option Int
deriving Repr, DecidableEq

/-- inspections.moveOut (damages list omitted: no controller in the suite
below writes it and no claim mentions it). -/
structure MoveOutInspection where
  scheduledAt : Option Int
  conductedAt : Option Int
  conductedBy : Option String
  report : Option String
  photos : List String
  condition : Option String
deriving Repr, DecidableEq

/-- The two structured inspection slots. -/
structure Inspections where
  moveIn : MoveInInspection
  moveOut : MoveOutInspection
deriving Repr, DecidableEq

/-- The renewal sub-record. -/
structure RenewalInfo where
  status : String
  offeredAt : Option Int
  responseDueBy : Option Int
  newEndDate : Option Int
  newRentAmount : Option Int
deriving Repr, DecidableEq

/-- The application screening sub-record (screeningResults and documents
omitted, see header). -/
structure ApplicationInfo where
  status : String
  submittedAt : Option Int
  reviewedAt : Option Int
  reviewedBy : Option String
deriving Repr, DecidableEq

/-- One documents entry ({type, name, uploadedBy, uploadedAt, version}). -/
structure DocumentRecord where
  docType : String
  name : String
  uploadedBy : String
  uploadedAt : Int
  version : Int
deriving Repr, DecidableEq

/-- The metadata sub-record (fields the controllers write). -/
structure LeaseMetadata where
  moveInDate : Option Int
  moveOutDate : Option Int
  forwardingAddress : Option String
deriving Repr, DecidableEq

/-- The Lease aggregate of lease.model.js.  User/property references are
their string ids; Date fields are Int milliseconds. -/
structure Lease where
  title : Option String
  landlord : String
  tenant : String
  property : String
  application : ApplicationInfo
  startDate : Option Int
  endDate : Option Int
  rentAmount : Option Int
  rentFrequency : String
  securityDeposit : Option Int
  depositStatus : String
  depositTransactions : List DepositTransaction
  utilitiesIncludedInRent : List String
  utilitiesPaidByTenant : List String
  lateFee : Option Int
  gracePeriod : Option Int
  inspections : Inspections
  status : String
  statusHistory : List HistoryEntry
  signatures : Signatures
  documents : List DocumentRecord
  messages : List Message
  requestedChanges : List RequestedChange
  notices : List Notice
  renewal : RenewalInfo
  createdBy : String
  isLocked : Bool
  lockedAt : Option Int
  deletedAt : Option Int
  deletedBy : Option String
  isDeleted : Bool
  metadata : LeaseMetadata
deriving Repr, DecidableEq

/-- Errors surfaced by the engine: AppError(statusCode, message) thrown by a
controller, or a Mongoose schema ValidationError raised by save(). -/
inductive LeaseErr where
  | app (code : Nat) (msg : String)
  | validation
deriving Repr, DecidableEq

/-- The status enum of lease.model.js. -/
def statusEnum : List String :=
  ["pending_request", "under_review", "approved", "rejected", "draft",
   "sent_to_tenant", "changes_requested", "sent_to_landlord",
   "signed_by_landlord", "signed_by_tenant", "fully_executed", "active",
   "renewal_pending", "notice_given", "move_out_scheduled", "cancelled",
   "expired", "terminated"]

/-- The depositStatus enum of lease.model.js. -/
def depositStatusEnum : List String :=
  ["pending", "paid", "held", "returned", "partially_returned"]

/-- The depositTransactions.type enum. -/
def txTypeEnum : List String := ["deposit", "return", "deduction"]

/-- The rentFrequency enum. -/
def rentFrequencyEnum : List String :=
  ["monthly", "weekly", "biweekly", "quarterly", "yearly"]

/-- The application.status enum. -/
def applicationStatusEnum : List String :=
  ["pending", "under_review", "approved", "rejected"]

/-- The notices.type enum. -/
def noticeTypeEnum : List String :=
  ["renewal", "termination", "rent_increase", "other"]

/-- The renewal.status enum. -/
def renewalStatusEnum : List String :=
  ["not_due", "pending", "offered", "accepted", "declined", "expired"]

/-- The signatures.*.signatureType enum. -/
def signatureTypeEnum : List String := ["draw", "type", "upload"]

/-- The documents.type enum. -/
def documentTypeEnum : List String :=
  ["lease", "addendum", "notice", "inspection", "other"]

/-- The inspections.moveOut.condition enum. -/
def conditionEnum : List String :=
  ["excellent", "good", "fair", "poor", "damaged"]

/-- Min-0 validator on an optional Number path. -/
def nonNegOpt : Option Int → Bool
  | none => true
  | some n => 0 ≤ n

/-- Enum validator on an optional String path (an absent value passes). -/
def enumOpt (xs : List String) : Option String → Bool
  | none => true
  | some s => xs.contains s

/-- Enum validator on status. -/
def statusOk (l : Lease) : Bool := statusEnum.contains l.status

/-- Enum validator on depositStatus. -/
def depositStatusOk (l : Lease) : Bool :=
  depositStatusEnum.contains l.depositStatus

/-- Enum validator on the type of every deposit transaction. -/
def txTypesOk (l : Lease) : Bool :=
  l.depositTransactions.all (fun t => txTypeEnum.contains t.txType)

/-- Enum validator on rentFrequency. -/
def rentFrequencyOk (l : Lease) : Bool :=
  rentFrequencyEnum.contains l.rentFrequency

/-- Enum validator on application.status. -/
def applicationStatusOk (l : Lease) : Bool :=
  applicationStatusEnum.contains l.application.status

/-- Enum validator on the type of every notice. -/
def noticeTypesOk (l : Lease) : Bool :=
  l.notices.all (fun n => noticeTypeEnum.contains n.noticeType)

/-- Enum validator on renewal.status. -/
def renewalStatusOk (l : Lease) : Bool :=
  renewalStatusEnum.contains l.renewal.status

/-- Enum validator on the signatureType of each populated signature slot. -/
def signatureTypesOk (l : Lease) : Bool :=
  (match l.signatures.landlord with
   | none => true
   | some s => signatureTypeEnum.contains s.signatureType)
    && (match l.signatures.tenant with
        | none => true
        | some s => signatureTypeEnum.contains s.signatureType)

/-- Enum validator on the type of every document. -/
def documentTypesOk (l : Lease) : Bool :=
  l.documents.all (fun d => documentTypeEnum.contains d.docType)

/-- Enum validator on the move-out condition. -/
def moveOutConditionOk (l : Lease) : Bool :=
  enumOpt conditionEnum l.inspections.moveOut.condition

/-- The min: 0 validators on the Number paths. -/
def amountsOk (l : Lease) : Bool :=
  nonNegOpt l.rentAmount && nonNegOpt l.securityDeposit
    && nonNegOpt l.lateFee && nonNegOpt l.gracePeriod

/-- Mongoose schema validation of lease.model.js, run by save() before the
document is written: the enum validators and the min: 0 validators of the
schema, one component per validated path. -/
def validateLease (l : Lease) : Bool :=
  statusOk l && depositStatusOk l && txTypesOk l && rentFrequencyOk l
    && applicationStatusOk l && noticeTypesOk l && renewalStatusOk l
    && signatureTypesOk l && documentTypesOk l && moveOutConditionOk l
    && amountsOk l

/-- Component decomposition of validateLease. -/
theorem validateLease_iff (l : Lease) :
    validateLease l = true ↔
      statusOk l = true ∧ depositStatusOk l = true ∧ txTypesOk l = true
        ∧ rentFrequencyOk l = true ∧ applicationStatusOk l = true
        ∧ noticeTypesOk l = true ∧ renewalStatusOk l = true
        ∧ signatureTypesOk l = true ∧ documentTypesOk l = true
        ∧ moveOutConditionOk l = true ∧ amountsOk l = true := by
  simp [validateLease, Bool.and_eq_true, and_assoc]

/-- Milliseconds in one day. -/
def dayMs : Int := 86400000

/-- The 60-day renewal window of the pre-save hook, abstracted from
setDate(getDate() - 60) to a fixed-length offset. -/
def sixtyDaysMs : Int := 60 * dayMs

/-- One year, abstracting setFullYear(getFullYear() + 1). -/
def oneYearMs : Int := 365 * dayMs

/-- First block of the pre-save hook of lease.model.js: flip an active lease
past its endDate to expired. -/
def expiryFlip (now : Int) (l : Lease) : Lease :=
  if (match l.endDate with | some e => now > e | none => false)
      && l.status == "active" then
    { l with status := "expired" }
  else l

/-- Second block of the pre-save hook: flip a fully_executed lease to active
once metadata.moveInDate has passed. -/
def moveInFlip (now : Int) (l : Lease) : Lease :=
  if (match l.metadata.moveInDate with | some m => m ≤ now | none => false)
      && l.status == "fully_executed" then
    { l with status := "active" }
  else l

/-- Third block of the pre-save hook: auto-create a renewal notice 60 days
before expiry on an active lease that has none, and move the renewal
sub-record to pending. -/
def renewalNoticeStep (now : Int) (l : Lease) : Lease :=
  match l.endDate with
  | none => l
  | some e =>
    if e - sixtyDaysMs ≤ now && l.status == "active"
        && !(l.notices.any (fun n => n.noticeType == "renewal")) then
      { l with
        notices := l.notices ++
          [{ noticeType := "renewal", givenBy := l.landlord, givenAt := now,
             effectiveDate := e, reason := some "Lease renewal notice",
             document := none, acknowledged := false,
             acknowledgedAt := none }],
        renewal := { l.renewal with status := "pending" } }
    else l

/-- The pre-save hook of lease.model.js (leaseSchema.pre("save")): its three
blocks run in source order. -/
def preSaveHook (now : Int) (l : Lease) : Lease :=
  renewalNoticeStep now (moveInFlip now (expiryFlip now l))

/-- Mongoose save(): schema validation, then the pre-save hook, then the
write.  A validation failure persists nothing. -/
def saveLease (now : Int) (l : Lease) : Except LeaseErr Lease :=
  if validateLease l then Except.ok (preSaveHook now l) else Except.error .validation

end CasaViva

namespace CasaViva

/-- JavaScript truthiness of an optional string request field:
undefined and the empty string are falsy. -/
def strTruthy : Option String → Bool
  | none => false
  | some s => s != ""

/-- JavaScript a || b on an optional string with a default. -/
def strOr (o : Option String) (d : String) : String :=
  match o with
  | some s => if s != "" then s else d
  | none => d

/-- messages.push of the controllers: append one message read by its sender. -/
def pushMsg (uid msg : String) (now : Int) (l : Lease) : Lease :=
  { l with messages := l.messages ++
      [{ fromUser := uid, message := msg, sentAt := now, readBy := [uid] }] }

/-- The forEach loop shared by sendToTenant and createOrUpdateDraft that marks
every unresolved requestedChanges entry resolved in place. -/
def resolveAllChanges (notes : String) (now : Int) (l : Lease) : Lease :=
  { l with requestedChanges := l.requestedChanges.map (fun rc =>
      if rc.resolved then rc
      else
        { rc with
          resolved := true, resolvedAt := some now,
          resolutionNotes := some notes }) }

/-- Empty move-in inspection sub-record (schema defaults). -/
def emptyMoveIn : MoveInInspection :=
  { scheduledAt := none, conductedAt := none, conductedBy := none,
    report := none, photos := [], signedByLandlord := false,
    signedByTenant := false, signedAt := none }

/-- Empty move-out inspection sub-record (schema defaults). -/
def emptyMoveOut : MoveOutInspection :=
  { scheduledAt := none, conductedAt := none, conductedBy := none,
    report := none, photos := [], condition := none }

/-- Controller 1 (createLease): tenant applies for a property.  The resolved
property (found flag, status, owner, price) and the duplicate-request query
result are explicit inputs; Lease.create is modelled as building the document
with the schema defaults and saving it. -/
def createLease (tenantId propertyId : String) (propertyFound : Bool)
    (propertyStatus ownerId : String) (price : Option Int)
    (message : Option String) (existingActiveRequest : Bool) (now : Int) :
    Except LeaseErr Lease :=
  if !propertyFound then .error (.app 404 "Property not found")
  else if propertyStatus != "active" then
    .error (.app 400 "Property is not available for rent")
  else if existingActiveRequest then
    .error (.app 400 "You already have an active request for this property")
  else
    saveLease now
      { title := none
        landlord := ownerId
        tenant := tenantId
        property := propertyId
        application := { status := "pending", submittedAt := some now,
                         reviewedAt := none, reviewedBy := none }
        startDate := none
        endDate := none
        rentAmount := some (price.getD 0)
        rentFrequency := "monthly"
        securityDeposit := some 0
        depositStatus := "pending"
        depositTransactions := []
        utilitiesIncludedInRent := []
        utilitiesPaidByTenant := []
        lateFee := none
        gracePeriod := none
        inspections := { moveIn := emptyMoveIn, moveOut := emptyMoveOut }
        status := "pending_request"
        statusHistory := [{ status := "pending_request", changedBy := tenantId,
                            reason := "Tenant applied for property",
                            changedAt := now }]
        signatures := { landlord := none, tenant := none }
        documents := []
        messages := if strTruthy message then
            [{ fromUser := tenantId, message := message.getD "",
               sentAt := now, readBy := [tenantId] }]
          else []
        requestedChanges := []
        notices := []
        renewal := { status := "not_due", offeredAt := none,
                     responseDueBy := none, newEndDate := none,
                     newRentAmount := none }
        createdBy := tenantId
        isLocked := false
        lockedAt := none
        deletedAt := none
        deletedBy := none
        isDeleted := false
        metadata := { moveInDate := none, moveOutDate := none,
                      forwardingAddress := none } }

/-- Controller 2 (reviewApplication): landlord approves or rejects a pending
application; approval also auto-fills a one-year draft (screeningResults,
which the record omits, are not modelled). -/
def reviewApplication (landlordId action : String) (reason : Option String)
    (now : Int) (l : Lease) : Except LeaseErr Lease :=
  if l.isDeleted || l.landlord != landlordId || l.status != "pending_request" then
    .error (.app 404 "Application not found or already processed")
  else if action != "approve" && action != "reject" then
    .error (.app 400 "Invalid action. Use approve or reject")
  else
    let l1 : Lease :=
      if action == "approve" then
        let la : Lease :=
          { l with
            status := "approved",
            application :=
              { l.application with
                status := "approved", reviewedAt := some now,
                reviewedBy := some landlordId },
            statusHistory := l.statusHistory ++
              [{ status := "approved", changedBy := landlordId,
                 reason := strOr reason "Application approved by landlord",
                 changedAt := now }] }
        { la with
          startDate := some now, endDate := some (now + oneYearMs),
          securityDeposit := la.rentAmount,
          depositStatus := "pending",
          utilitiesIncludedInRent := [],
          utilitiesPaidByTenant := ["electricity", "water", "internet"] }
      else
        { l with
          status := "rejected",
          application :=
            { l.application with
              status := "rejected", reviewedAt := some now,
              reviewedBy := some landlordId },
          statusHistory := l.statusHistory ++
            [{ status := "rejected", changedBy := landlordId,
               reason := strOr reason "Application rejected by landlord",
               changedAt := now }] }
    let l2 := pushMsg landlordId
      (if action == "approve" then "Application approved. Lease draft created."
       else "Application rejected.") now l1
    saveLease now l2

/-- Controller 3 (approveRequest, legacy): landlord turns a pending request
directly into a draft, copying the property price into rentAmount when
rentAmount is unset or zero. -/
def approveRequest (userId : String) (propertyPrice : Option Int) (now : Int)
    (l : Lease) : Except LeaseErr Lease :=
  if l.isDeleted || l.landlord != userId || l.status != "pending_request" then
    .error (.app 404 "Request not found")
  else
    let l1 := { l with status := "draft" }
    let l2 :=
      if (match l1.rentAmount with | none => true | some r => r == 0)
          && (match propertyPrice with | some p => p != 0 | none => false) then
        { l1 with rentAmount := propertyPrice }
      else l1
    let l3 := { l2 with statusHistory := l2.statusHistory ++
        [{ status := "draft", changedBy := userId,
           reason := "Owner approved request", changedAt := now }] }
    saveLease now l3

/-- Request body of createOrUpdateDraft / updateLease (the recognised fields
the record models; terms, paymentSettings, maintenanceTerms, screeningResults
and inspection overrides are outside the record, see the header). -/
structure UpdateBody where
  status : Option String := none
  reason : Option String := none
  title : Option String := none
  startDate : Option Int := none
  endDate : Option Int := none
  rentAmount : Option Int := none
  rentFrequency : Option String := none
  securityDeposit : Option Int := none
  lateFee : Option Int := none
  gracePeriod : Option Int := none
  utilitiesIncludedInRent : Option (List String) := none
  utilitiesPaidByTenant : Option (List String) := none
  forwardingAddress : Option String := none
  message : Option String := none
  resolveChanges : Bool := false
  resolutionNotes : Option String := none
deriving Repr, DecidableEq

/-- The allowedUpdates / landlordEditable field-assignment loop: copy every
field present in the body onto the lease. -/
def applyTermFields (u : UpdateBody) (l : Lease) : Lease :=
  { l with
    title := match u.title with | some t => some t | none => l.title
    startDate := match u.startDate with | some d => some d | none => l.startDate
    endDate := match u.endDate with | some d => some d | none => l.endDate
    rentAmount := match u.rentAmount with | some r => some r | none => l.rentAmount
    rentFrequency := u.rentFrequency.getD l.rentFrequency
    securityDeposit := match u.securityDeposit with
      | some v => some v | none => l.securityDeposit
    lateFee := match u.lateFee with | some v => some v | none => l.lateFee
    gracePeriod := match u.gracePeriod with | some v => some v | none => l.gracePeriod
    utilitiesIncludedInRent := u.utilitiesIncludedInRent.getD l.utilitiesIncludedInRent
    utilitiesPaidByTenant := u.utilitiesPaidByTenant.getD l.utilitiesPaidByTenant }

/-- Controller 4 (createOrUpdateDraft): landlord edits a draft; from approved
or changes_requested the status is reset to draft with a history entry.  The
source then tests status == changes_requested for its resolve-changes branch
AFTER that reset, so the branch is dead; it is kept verbatim. -/
def createOrUpdateDraft (landlordId : String) (u : UpdateBody) (now : Int)
    (l : Lease) : Except LeaseErr Lease :=
  if l.isDeleted || l.landlord != landlordId
      || !(["approved", "draft", "changes_requested"].contains l.status) then
    .error (.app 404 "Lease not found or cannot be edited")
  else
    let l1 := applyTermFields u l
    let l2 :=
      if l1.status == "approved" || l1.status == "changes_requested" then
        { l1 with status := "draft", statusHistory := l1.statusHistory ++
            [{ status := "draft", changedBy := landlordId,
               reason := strOr u.message "Lease draft created/updated",
               changedAt := now }] }
      else l1
    let l3 :=
      if l2.status == "changes_requested" && u.resolveChanges then
        resolveAllChanges (strOr u.resolutionNotes "Changes implemented") now l2
      else l2
    let l4 := if strTruthy u.message then
        pushMsg landlordId (u.message.getD "") now l3
      else l3
    saveLease now l4

/-- The required-field validation list of sendToTenant. -/
def sendToTenantMissing (l : Lease) : List String :=
  (if l.startDate.isNone then ["Start date"] else [])
    ++ (if l.endDate.isNone then ["End date"] else [])
    ++ (if (match l.rentAmount with
            | some r => decide (r ≤ 0)
            | none => true) then
          ["Valid rent amount"] else [])
    ++ (if l.securityDeposit.isNone then ["Security deposit"] else [])

/-- Controller 5 (sendToTenant): landlord sends a draft (or re-sends after
changes) to the tenant, first resolving all open change requests, after
validating dates, rent and deposit. -/
def sendToTenant (landlordId : String) (message : Option String) (now : Int)
    (l : Lease) : Except LeaseErr Lease :=
  if l.isDeleted || l.landlord != landlordId
      || !(["draft", "changes_requested"].contains l.status) then
    .error (.app 404 "Lease not found or cannot be sent")
  else
    let l1 := resolveAllChanges "Changes implemented by landlord" now l
    let missing := sendToTenantMissing l1
    if missing != [] then
      .error (.app 400 ("Cannot send lease. Missing: " ++
        String.intercalate ", " missing))
    else
      let l2 :=
        { l1 with
          status := "sent_to_tenant",
          statusHistory := l1.statusHistory ++
            [{ status := "sent_to_tenant", changedBy := landlordId,
               reason := "Lease sent to tenant for review",
               changedAt := now }] }
      let l3 := if strTruthy message then
          pushMsg landlordId (message.getD "") now l2
        else l2
      saveLease now l3

/-- Controller 6 (requestChanges): tenant asks for changes on a lease that was
sent to them; the change text is required and stored trimmed. -/
def requestChanges (tenantId : String) (changes : Option String) (now : Int)
    (l : Lease) : Except LeaseErr Lease :=
  if l.isDeleted || l.tenant != tenantId || l.status != "sent_to_tenant" then
    .error (.app 404 "Lease not found or cannot request changes")
  else
    match changes with
    | none => .error (.app 400 "Changes description is required")
    | some c =>
      if c.trim == "" then .error (.app 400 "Changes description is required")
      else
        let l1 :=
          { l with
            status := "changes_requested",
            requestedChanges := l.requestedChanges ++
              [{ requestedBy := tenantId, changes := c.trim,
                 requestedAt := now, resolved := false, resolvedAt := none,
                 resolutionNotes := none }],
            statusHistory := l.statusHistory ++
              [{ status := "changes_requested", changedBy := tenantId,
                 reason := "Tenant requested changes", changedAt := now }] }
        let l2 := pushMsg tenantId ("Requested changes: " ++ c) now l1
        saveLease now l2

/-- Controller 7 (tenantReviewLease): tenant approves (sends to landlord for
signature) or requests changes. -/
def tenantReviewLease (tenantId action : String) (changes message : Option String)
    (now : Int) (l : Lease) : Except LeaseErr Lease :=
  if l.isDeleted || l.tenant != tenantId || l.status != "sent_to_tenant" then
    .error (.app 404 "Lease not found or not available for review")
  else if action != "approve" && action != "request_changes" then
    .error (.app 400 "Invalid action. Use approve or request_changes")
  else if action == "approve" then
    let l1 :=
      { l with
        status := "sent_to_landlord",
        statusHistory := l.statusHistory ++
          [{ status := "sent_to_landlord", changedBy := tenantId,
             reason := "Tenant approved lease, sent to landlord for signature",
             changedAt := now }] }
    let l2 := if strTruthy message then
        pushMsg tenantId (message.getD "") now l1
      else l1
    saveLease now l2
  else
    match changes with
    | none => .error (.app 400 "Changes description is required")
    | some c =>
      if c.trim == "" then .error (.app 400 "Changes description is required")
      else
        let l1 :=
          { l with
            status := "changes_requested",
            requestedChanges := l.requestedChanges ++
              [{ requestedBy := tenantId, changes := c.trim,
                 requestedAt := now, resolved := false, resolvedAt := none,
                 resolutionNotes := none }],
            statusHistory := l.statusHistory ++
              [{ status := "changes_requested", changedBy := tenantId,
                 reason := "Tenant requested changes", changedAt := now }] }
        let l2 := if strTruthy message then
            pushMsg tenantId (message.getD "") now l1
          else l1
        saveLease now l2

/-- Controller 8 (sendToLandlordForSignature): tenant forwards the lease for
the landlord signature; rejected if the tenant already signed. -/
def sendToLandlordForSignature (tenantId : String) (message : Option String)
    (now : Int) (l : Lease) : Except LeaseErr Lease :=
  if l.isDeleted || l.tenant != tenantId || l.status != "sent_to_tenant" then
    .error (.app 404 "Lease not found or you are not authorized")
  else if l.signatures.tenant.isSome then
    .error (.app 400 "You have already signed this lease")
  else
    let l1 := { l with status := "sent_to_landlord" }
    let l2 := if (match message with | some m => m.trim != "" | none => false) then
        pushMsg tenantId ((message.getD "").trim) now l1
      else l1
    let l3 := { l2 with statusHistory := l2.statusHistory ++
        [{ status := "sent_to_landlord", changedBy := tenantId,
           reason := "Tenant sent lease to landlord for signature",
           changedAt := now }] }
    saveLease now l3

end CasaViva

namespace CasaViva

/-- Controller 9 (signLease): either party signs.  The external signature
upload (base64ToBuffer + uploadServices.uploadSingleFile) is modelled by the
uploadUrl parameter, the successful upload result; an upload failure aborts
before any mutation and is not a lease outcome.  The ordering guard of the
source only fires for the statuses sent_to_tenant and sent_to_landlord. -/
def signatureRecordOf (signatureMode : String) (typedSignature : Option String)
    (uploadUrl ipAddr uAgent : String) (now : Int) : SignatureRecord :=
  { signedAt := now, signatureType := signatureMode,
    dataUrl := uploadUrl,
    typedText := if signatureMode == "type" then typedSignature else none,
    ipAddress := ipAddr, userAgent := uAgent }

/-- The write section of signLease once all guards have passed: store the
signature in the callers slot, then apply the role-dependent status
transition (landlord: signed_by_landlord from sent_to_landlord or draft;
tenant: fully_executed plus lock, with the future move-in date capture). -/
def signWrite (userId role : String) (sig : SignatureRecord) (now : Int)
    (l : Lease) : Lease :=
  let l1 : Lease :=
    if role == "landlord" then
      { l with signatures := { l.signatures with landlord := some sig } }
    else
      { l with signatures := { l.signatures with tenant := some sig } }
  if role == "landlord" then
    if l1.status == "sent_to_landlord" || l1.status == "draft" then
      { l1 with
        status := "signed_by_landlord",
        statusHistory := l1.statusHistory ++
          [{ status := "signed_by_landlord", changedBy := userId,
             reason := "Landlord signed the lease", changedAt := now }] }
    else l1
  else
    let la : Lease :=
      { l1 with
        status := "fully_executed", isLocked := true,
        lockedAt := some now,
        statusHistory := l1.statusHistory ++
          [{ status := "fully_executed", changedBy := userId,
             reason := "Tenant signed, lease fully executed",
             changedAt := now }] }
    if (match la.startDate with
        | some s => decide (now < s)
        | none => false) then
      { la with metadata := { la.metadata with moveInDate := la.startDate } }
    else la

def signLease (userId signatureDataUrl signatureMode : String)
    (typedSignature : Option String) (uploadUrl ipAddr uAgent : String)
    (now : Int) (l : Lease) : Except LeaseErr Lease :=
  if signatureDataUrl == "" || signatureMode == "" then
    .error (.app 400 "Signature data is required")
  else if l.isDeleted then .error (.app 404 "Lease not found")
  else if l.isLocked then .error (.app 400 "Lease already finalized")
  else
    let isLandlord := l.landlord == userId
    let isTenant := l.tenant == userId
    if !isLandlord && !isTenant then
      .error (.app 403 "Unauthorized to sign this lease")
    else
      let role := if isLandlord then "landlord" else "tenant"
      let slot := if isLandlord then l.signatures.landlord else l.signatures.tenant
      if slot.isSome then
        .error (.app 400 "You have already signed this lease")
      else if role == "tenant" && l.signatures.landlord.isNone
          && l.status == "sent_to_tenant" then
        .error (.app 400 "Please review and approve the lease first before signing")
      else if role == "tenant" && l.signatures.landlord.isNone
          && l.status == "sent_to_landlord" then
        .error (.app 400 "Landlord must sign first. The lease is with the landlord for signature.")
      else
        let sig : SignatureRecord :=
          signatureRecordOf signatureMode typedSignature uploadUrl ipAddr
            uAgent now
        let l2 : Lease := signWrite userId role sig now l
        let l3 := pushMsg userId (role ++ " signed the lease agreement") now l2
        saveLease now l3

/-- The allowedTransitions table of updateLease. -/
def allowedTransitions (role s : String) : List String :=
  if role == "landlord" then
    if s == "pending_request" then ["under_review", "rejected"]
    else if s == "under_review" then ["approved", "rejected"]
    else if s == "approved" then ["draft"]
    else if s == "draft" then ["sent_to_tenant"]
    else if s == "changes_requested" then ["draft"]
    else if s == "sent_to_landlord" then ["signed_by_landlord"]
    else if s == "signed_by_tenant" then ["fully_executed"]
    else if s == "active" then ["renewal_pending", "notice_given"]
    else []
  else
    if s == "sent_to_tenant" then ["changes_requested", "sent_to_landlord"]
    else if s == "renewal_pending" then ["accepted", "declined"]
    else if s == "notice_given" then ["move_out_scheduled"]
    else []

/-- Controller 10 (updateLease): general update by either party; an optional
status transition checked against allowedTransitions, then role-gated field
assignments.  Note the source has no isLocked check on this path. -/
def updateWrite (userId : String) (isLandlord isTenant : Bool)
    (u : UpdateBody) (now : Int) (l1 : Lease) : Except LeaseErr Lease :=
  let l2 := if isLandlord then applyTermFields u l1 else l1
  let l3 : Lease :=
    if isTenant then
      match u.forwardingAddress with
      | some a =>
        { l2 with metadata := { l2.metadata with forwardingAddress := some a } }
      | none => l2
    else l2
  let l4 := if strTruthy u.message then
      pushMsg userId (u.message.getD "") now l3
    else l3
  saveLease now l4

def updateLease (userId : String) (u : UpdateBody) (now : Int) (l : Lease) :
    Except LeaseErr Lease :=
  if l.isDeleted || (l.landlord != userId && l.tenant != userId) then
    .error (.app 404 "Lease not found or unauthorized")
  else
    let isLandlord := l.landlord == userId
    let isTenant := l.tenant == userId
    let role := if isLandlord then "landlord" else "tenant"
    match u.status with
    | none => updateWrite userId isLandlord isTenant u now l
    | some s =>
      if (allowedTransitions role l.status).contains s then
        updateWrite userId isLandlord isTenant u now
          { l with
            status := s,
            statusHistory := l.statusHistory ++
              [{ status := s, changedBy := userId,
                 reason := strOr u.reason ("Status updated by " ++ role),
                 changedAt := now }] }
      else
        .error (.app 400 ("Cannot transition from " ++ l.status ++ " to " ++
          s ++ " as " ++ role))

/-- The status filter of the cancelLease findOne query. -/
def cancellableStatuses : List String :=
  ["pending_request", "under_review", "approved", "draft", "sent_to_tenant",
   "changes_requested"]

/-- Controller 13 (cancelLease): either party cancels an early-stage lease;
with a paid deposit the source additionally writes depositStatus
pending_refund and a ledger entry of type refund — both outside the schema
enums of lease.model.js. -/
def cancelLease (userId : String) (reason : Option String) (now : Int)
    (l : Lease) : Except LeaseErr Lease :=
  if l.isDeleted || (l.landlord != userId && l.tenant != userId)
      || !(cancellableStatuses.contains l.status) then
    .error (.app 404 "Lease not found or cannot be cancelled")
  else
    let role := if l.landlord == userId then "landlord" else "tenant"
    let reasonText := strOr reason "No reason provided"
    let l1 : Lease :=
      { l with
        status := "cancelled",
        statusHistory := l.statusHistory ++
          [{ status := "cancelled", changedBy := userId,
             reason := "Cancelled by " ++ role ++ ": " ++ reasonText,
             changedAt := now }] }
    let l2 := pushMsg userId ("Lease cancelled. Reason: " ++ reasonText) now l1
    let l3 : Lease :=
      if l2.depositStatus == "paid" then
        { l2 with
          depositStatus := "pending_refund",
          depositTransactions := l2.depositTransactions ++
            [{ amount := l2.securityDeposit.getD 0, txType := "refund",
               date := now,
               description := some "Refund due to lease cancellation",
               proof := none }] }
      else l2
    saveLease now l3

/-- Controller 15 (deleteLease): soft delete of a finished or draft lease. -/
def deleteLease (userId : String) (now : Int) (l : Lease) :
    Except LeaseErr Lease :=
  if l.isDeleted || (l.landlord != userId && l.tenant != userId)
      || !(["draft", "cancelled", "expired", "rejected"].contains l.status) then
    .error (.app 404 "Lease not found or cannot be deleted")
  else
    saveLease now
      { l with
        isDeleted := true
        deletedAt := some now
        deletedBy := some userId }

/-- Controller 16 (restoreLease): undo a soft delete. -/
def restoreLease (userId : String) (now : Int) (l : Lease) :
    Except LeaseErr Lease :=
  if !l.isDeleted || (l.landlord != userId && l.tenant != userId) then
    .error (.app 404 "Deleted lease not found")
  else
    saveLease now { l with isDeleted := false, deletedAt := none, deletedBy := none }

/-- Controller 17 (scheduleMoveInInspection).  The notes write of the source
targets a non-schema path and is dropped by strict mode. -/
def scheduleMoveInInspection (userId : String) (scheduledAt : Option Int)
    (now : Int) (l : Lease) : Except LeaseErr Lease :=
  if l.isDeleted || (l.landlord != userId && l.tenant != userId)
      || l.status != "fully_executed" then
    .error (.app 404 "Lease not found or not ready for move-in")
  else
    match scheduledAt with
    | none => .error (.app 400 "Inspection date and time is required")
    | some t =>
      let l1 : Lease :=
        { l with inspections :=
          { l.inspections with moveIn :=
            { l.inspections.moveIn with
              scheduledAt := some t
              conductedBy := some userId } } }
      let l2 := pushMsg userId
        ("Move-in inspection scheduled for " ++ toString t) now l1
      saveLease now l2

/-- Controller 18 (conductMoveInInspection): record the inspection; when both
parties have signed it the lease becomes active.  The condition write of the
source targets a non-schema moveIn path and is dropped by strict mode. -/
def conductMoveInInspection (userId : String) (report : Option String)
    (photos : List String) (now : Int) (l : Lease) : Except LeaseErr Lease :=
  if l.isDeleted || (l.landlord != userId && l.tenant != userId)
      || l.status != "fully_executed" then
    .error (.app 404 "Lease not found")
  else if l.inspections.moveIn.scheduledAt.isNone then
    .error (.app 400 "Move-in inspection not scheduled")
  else
    let isLandlord := l.landlord == userId
    let mi0 := l.inspections.moveIn
    let mi1 := { mi0 with conductedAt := some now, report := report }
    let mi2 := if photos != [] then { mi1 with photos := photos } else mi1
    let mi3 :=
      if isLandlord then
        { mi2 with conductedBy := some userId, signedByLandlord := true }
      else
        { mi2 with signedByTenant := true }
    let l1 : Lease := { l with inspections := { l.inspections with moveIn := mi3 } }
    let l2 : Lease :=
      if mi3.signedByLandlord && mi3.signedByTenant then
        { l1 with
          status := "active",
          statusHistory := l1.statusHistory ++
            [{ status := "active", changedBy := userId,
               reason := "Move-in inspection completed, lease now active",
               changedAt := now }],
          metadata := { l1.metadata with moveInDate := some now } }
      else l1
    saveLease now l2

/-- Controller 19 (giveNotice): renewal or termination notice on an active
lease.  Termination changes the status; renewal only moves the renewal
sub-record to offered with a 30-day response deadline. -/
def giveNotice (userId noticeKind : String) (effectiveDate : Option Int)
    (reason document : Option String) (now : Int) (l : Lease) :
    Except LeaseErr Lease :=
  if l.isDeleted || (l.landlord != userId && l.tenant != userId)
      || l.status != "active" then
    .error (.app 404 "Active lease not found")
  else if noticeKind != "renewal" && noticeKind != "termination" then
    .error (.app 400 "Notice type must be renewal or termination")
  else
    match effectiveDate with
    | none => .error (.app 400 "Effective date is required")
    | some eff =>
      let l1 : Lease :=
        { l with notices := l.notices ++
            [{ noticeType := noticeKind, givenBy := userId, givenAt := now,
               effectiveDate := eff, reason := reason, document := document,
               acknowledged := false, acknowledgedAt := none }] }
      let l2 : Lease :=
        if noticeKind == "termination" then
          { l1 with
            status := "notice_given",
            statusHistory := l1.statusHistory ++
              [{ status := "notice_given", changedBy := userId,
                 reason := (if userId == l1.landlord then "Landlord"
                            else "Tenant") ++ " gave termination notice",
                 changedAt := now }] }
        else
          { l1 with renewal :=
            { l1.renewal with
              status := "offered"
              offeredAt := some now
              responseDueBy := some (now + 30 * dayMs) } }
      saveLease now l2

/-- The notices.find loop of respondToRenewal: acknowledge the first
unacknowledged renewal notice. -/
def ackFirstRenewal (now : Int) : List Notice → List Notice
  | [] => []
  | n :: rest =>
    if n.noticeType == "renewal" && !n.acknowledged then
      { n with acknowledged := true, acknowledgedAt := some now } :: rest
    else n :: ackFirstRenewal now rest

/-- Controller 20 (respondToRenewal): tenant accepts or declines an offered
renewal.  Accept rewrites rent / end date and appends an addendum document
plus a history entry (without changing the primary status); decline moves the
lease to notice_given.  The acceptedAt / declinedAt writes of the source are
non-schema paths dropped by strict mode. -/
def respondToRenewal (tenantId action : String) (newRentAmount : Option Int)
    (newEndDate : Option Int) (now : Int) (l : Lease) :
    Except LeaseErr Lease :=
  if l.isDeleted || l.tenant != tenantId || l.renewal.status != "offered" then
    .error (.app 404 "Renewal offer not found")
  else if action != "accept" && action != "decline" then
    .error (.app 400 "Action must be accept or decline")
  else
    let l1 : Lease :=
      if action == "accept" then
        let la : Lease := { l with renewal := { l.renewal with status := "accepted" } }
        let lb : Lease :=
          match newRentAmount with
          | some r =>
            if r != 0 then
              { la with
                renewal := { la.renewal with newRentAmount := some r },
                rentAmount := some r }
            else la
          | none => la
        let lc : Lease :=
          match newEndDate with
          | some d =>
            { lb with
              renewal := { lb.renewal with newEndDate := some d },
              endDate := some d }
          | none => lb
        let ld : Lease :=
          { lc with documents := lc.documents ++
              [{ docType := "addendum", name := "Renewal Addendum",
                 uploadedBy := tenantId, uploadedAt := now,
                 version := (lc.documents.filter
                   (fun d => d.docType == "addendum")).length + 1 }] }
        { ld with statusHistory := ld.statusHistory ++
            [{ status := "active", changedBy := tenantId,
               reason := "Lease renewal accepted", changedAt := now }] }
      else
        { l with
          renewal := { l.renewal with status := "declined" },
          status := "notice_given",
          statusHistory := l.statusHistory ++
            [{ status := "notice_given", changedBy := tenantId,
               reason := "Renewal declined, lease will end on original date",
               changedAt := now }] }
    let l2 : Lease := { l1 with notices := ackFirstRenewal now l1.notices }
    saveLease now l2

/-- Controller 21 (scheduleMoveOutInspection). -/
def scheduleMoveOutInspection (userId : String) (scheduledAt : Option Int)
    (now : Int) (l : Lease) : Except LeaseErr Lease :=
  if l.isDeleted || (l.landlord != userId && l.tenant != userId)
      || !(["notice_given", "active"].contains l.status) then
    .error (.app 404 "Lease not found")
  else
    match scheduledAt with
    | none => .error (.app 400 "Scheduled date is required")
    | some t =>
      let mo0 := { l.inspections.moveOut with scheduledAt := some t }
      let mo1 := if userId == l.landlord then
          { mo0 with conductedBy := some userId }
        else mo0
      let l1 : Lease := { l with inspections := { l.inspections with moveOut := mo1 } }
      let l2 := pushMsg userId
        ("Move-out inspection scheduled for " ++ toString t) now l1
      saveLease now l2

/-- One deductions[] item of the processDepositReturn request body. -/
structure Deduction where
  amount : Int
  description : Option String := none
  proof : Option String := none
deriving Repr, DecidableEq

/-- Controller 22 (processDepositReturn): landlord settles the deposit of an
expired or terminated lease still holding it; the returned amount must match
securityDeposit minus deductions within 1 unit. -/
def processDepositReturn (landlordId : String) (returnedAmount : Int)
    (deductions : List Deduction) (description returnProof : Option String)
    (now : Int) (l : Lease) : Except LeaseErr Lease :=
  if l.isDeleted || l.landlord != landlordId
      || !(["expired", "terminated"].contains l.status)
      || l.depositStatus != "held" then
    .error (.app 404 "Lease not found or deposit not available for return")
  else if returnedAmount == 0 || returnedAmount < 0 then
    .error (.app 400 "Valid returned amount is required")
  else
    let totalDeductions := (deductions.map (fun d => d.amount)).sum
    let expectedReturn := l.securityDeposit.getD 0 - totalDeductions
    if 1 < (returnedAmount - expectedReturn).natAbs then
      .error (.app 400 ("Returned amount (" ++ toString returnedAmount ++
        ") does not match expected return (" ++ toString expectedReturn ++ ")"))
    else
      let l1 : Lease :=
        { l with depositTransactions := l.depositTransactions ++
            deductions.map (fun d =>
              { amount := d.amount, txType := "deduction", date := now,
                description := d.description, proof := d.proof }) ++
            [{ amount := returnedAmount, txType := "return", date := now,
               description := some (strOr description "Security deposit return"),
               proof := returnProof }] }
      let l2 : Lease :=
        { l1 with depositStatus :=
            if returnedAmount == 0 then "held"
            else if returnedAmount < l1.securityDeposit.getD 0 then
              "partially_returned"
            else "returned" }
      let l3 := pushMsg landlordId "Security deposit processed" now l2
      saveLease now l3

end CasaViva

namespace CasaViva

/-- Project a field out of a persisted (ok) result. -/
def mapOk {α : Type} (f : Lease → α) : Except LeaseErr Lease → Option α
  | .ok l => some (f l)
  | .error _ => none

/-- Did the operation persist a lease? -/
def isOkE : Except LeaseErr Lease → Bool
  | .ok _ => true
  | .error _ => false

/-- A Lease predicate holds on the persisted result of an operation (errors
persist nothing, so they satisfy every state predicate). -/
def presAfter (p : Lease → Bool) : Except LeaseErr Lease → Bool
  | .ok l => p l
  | .error _ => true

/-- Boolean implication, used to state conditional invariants executably. -/
def bImp (a b : Bool) : Bool := !a || b

/-- The statuses at or after full execution (fully_executed or later), the
terminal-signing statuses of the claims. -/
def lockedStatuses : List String :=
  ["fully_executed", "active", "renewal_pending", "notice_given",
   "move_out_scheduled", "expired", "terminated"]

/-- The invariant exactly as claim C2 states it: a locked lease has both
signature slots populated and a fully_executed-or-later status. -/
def lockSigStatusOk (l : Lease) : Bool :=
  bImp l.isLocked
    (l.signatures.landlord.isSome && l.signatures.tenant.isSome
      && lockedStatuses.contains l.status)

/-- The invariant the code actually maintains: a locked lease has a populated
TENANT slot and a fully_executed-or-later status (the landlord slot can be
empty, because signLease only enforces landlord-first order in the statuses
sent_to_tenant and sent_to_landlord). -/
def lockTenantStatusOk (l : Lease) : Bool :=
  bImp l.isLocked
    (l.signatures.tenant.isSome && lockedStatuses.contains l.status)

/-- depositStatus is not held. -/
def depositNotHeld (l : Lease) : Bool := l.depositStatus != "held"

/-- The status changes the lazy pre-save derivation can make without a
history entry: none, active to expired past endDate, or fully_executed to
active once moveInDate passed. -/
def lazyFlip (a b : String) : Bool :=
  a == b || (a == "active" && b == "expired")
    || (a == "fully_executed" && b == "active")

/-- How one persisted operation may evolve statusHistory, as the code
maintains it: either no entry is appended and any status change is a lazy
pre-save flip, or exactly one entry is appended on top of the old history,
recording the controller-level transition (the persisted status may differ
from the entry only by a lazy flip; the renewal-accept entry is labelled
active without a transition and is the one exception). -/
def histStepOk (old m : Lease) : Bool :=
  if m.statusHistory == old.statusHistory then
    lazyFlip old.status m.status
  else
    (m.statusHistory.length == old.statusHistory.length + 1)
      && (m.statusHistory.take old.statusHistory.length == old.statusHistory)
      && (match m.statusHistory.getLast? with
          | some e =>
            lazyFlip e.status m.status
              || (e.status == "active" && e.reason == "Lease renewal accepted"
                  && lazyFlip old.status m.status)
          | none => false)

/-- histStepOk on the persisted result of an operation. -/
def histStepE (old : Lease) : Except LeaseErr Lease → Bool
  | .ok m => histStepOk old m
  | .error _ => true

/-- The status-dependent ordering-violation message of signLease for a tenant
signing while the landlord slot is empty. -/
def orderingMsg (s : String) : String :=
  if s == "sent_to_tenant" then
    "Please review and approve the lease first before signing"
  else
    "Landlord must sign first. The lease is with the landlord for signature."

/-- An application sub-record with schema defaults. -/
def emptyApp : ApplicationInfo :=
  { status := "pending", submittedAt := none, reviewedAt := none,
    reviewedBy := none }

/-- A renewal sub-record with schema defaults. -/
def emptyRenewal : RenewalInfo :=
  { status := "not_due", offeredAt := none, responseDueBy := none,
    newEndDate := none, newRentAmount := none }

/-- A metadata sub-record with schema defaults. -/
def emptyMeta : LeaseMetadata :=
  { moveInDate := none, moveOutDate := none, forwardingAddress := none }

/-- A concrete schema-valid draft lease between landlord L1 and tenant T1
used as the base of the concrete scenarios below. -/
def baseLease : Lease :=
  { title := none, landlord := "L1", tenant := "T1", property := "P1",
    application := emptyApp,
    startDate := some 0, endDate := some 63072000000,
    rentAmount := some 1200, rentFrequency := "monthly",
    securityDeposit := some 1200, depositStatus := "pending",
    depositTransactions := [], utilitiesIncludedInRent := [],
    utilitiesPaidByTenant := [], lateFee := none, gracePeriod := none,
    inspections := { moveIn := emptyMoveIn, moveOut := emptyMoveOut },
    status := "draft",
    statusHistory := [{ status := "pending_request", changedBy := "T1",
                        reason := "Tenant applied for property",
                        changedAt := 0 }],
    signatures := { landlord := none, tenant := none },
    documents := [], messages := [], requestedChanges := [], notices := [],
    renewal := emptyRenewal, createdBy := "T1",
    isLocked := false, lockedAt := none, deletedAt := none, deletedBy := none,
    isDeleted := false, metadata := emptyMeta }

end CasaViva

namespace CasaViva

/-- The projection of a lease onto the fields the pre-save hook never
touches (everything outside status / notices / renewal). -/
def coreView (l : Lease) :=
  (l.rentAmount, l.startDate, l.endDate, l.securityDeposit, l.depositStatus,
   l.depositTransactions, l.statusHistory, l.signatures, l.isLocked,
   l.isDeleted, l.landlord, l.tenant, l.metadata)

theorem expiryFlip_core (now : Int) (l : Lease) :
    coreView (expiryFlip now l) = coreView l := by
  unfold expiryFlip
  split <;> rfl

theorem moveInFlip_core (now : Int) (l : Lease) :
    coreView (moveInFlip now l) = coreView l := by
  unfold moveInFlip
  split <;> rfl

theorem renewalNoticeStep_core (now : Int) (l : Lease) :
    coreView (renewalNoticeStep now l) = coreView l := by
  unfold renewalNoticeStep
  repeat' split
  all_goals rfl

/-- The pre-save hook never touches the fields outside status / notices /
renewal. -/
theorem preSaveHook_core (now : Int) (l : Lease) :
    coreView (preSaveHook now l) = coreView l := by
  unfold preSaveHook
  rw [renewalNoticeStep_core, moveInFlip_core, expiryFlip_core]

/-- Any status change the pre-save hook makes is a lazy flip. -/
theorem preSaveHook_lazyFlip (now : Int) (l : Lease) :
    lazyFlip l.status (preSaveHook now l).status = true := by
  unfold preSaveHook renewalNoticeStep moveInFlip expiryFlip lazyFlip
  repeat' split
  all_goals simp_all

end CasaViva

namespace CasaViva

/-- Component form of preSaveHook_core. -/
theorem preSaveHook_fields (now : Int) (l : Lease) :
    (preSaveHook now l).rentAmount = l.rentAmount ∧
    (preSaveHook now l).startDate = l.startDate ∧
    (preSaveHook now l).endDate = l.endDate ∧
    (preSaveHook now l).securityDeposit = l.securityDeposit ∧
    (preSaveHook now l).depositStatus = l.depositStatus ∧
    (preSaveHook now l).depositTransactions = l.depositTransactions ∧
    (preSaveHook now l).statusHistory = l.statusHistory ∧
    (preSaveHook now l).signatures = l.signatures ∧
    (preSaveHook now l).isLocked = l.isLocked ∧
    (preSaveHook now l).isDeleted = l.isDeleted ∧
    (preSaveHook now l).landlord = l.landlord ∧
    (preSaveHook now l).tenant = l.tenant ∧
    (preSaveHook now l).metadata = l.metadata := by
  have h := preSaveHook_core now l
  simp only [coreView, Prod.mk.injEq] at h
  exact h

/-- A validated document is persisted as its hook image. -/
theorem saveLease_ok (now : Int) (m : Lease) (h : validateLease m = true) :
    saveLease now m = .ok (preSaveHook now m) := by
  simp [saveLease, h]

/-- An invalid document is rejected by save(). -/
theorem saveLease_err (now : Int) (m : Lease) (h : validateLease m = false) :
    saveLease now m = .error .validation := by
  simp [saveLease, h]

/-- Persisting preserves any state predicate that the document satisfies
(when valid) and the hook respects. -/
theorem saveLease_pres (p : Lease → Bool) (now : Int) (m : Lease)
    (hp : validateLease m = true → p m = true)
    (hhook : ∀ k, p k = true → p (preSaveHook now k) = true) :
    presAfter p (saveLease now m) = true := by
  unfold saveLease
  by_cases h : validateLease m = true
  · simp only [h, if_true]
    exact hhook m (hp h)
  · simp only [Bool.not_eq_true] at h
    simp [h, presAfter]

/-- Lazy flips stay inside the fully_executed-or-later status set. -/
theorem lazyFlip_locked (a b : String) (hf : lazyFlip a b = true)
    (ha : lockedStatuses.contains a = true) :
    lockedStatuses.contains b = true := by
  simp only [lazyFlip, Bool.or_eq_true, Bool.and_eq_true, beq_iff_eq] at hf
  rcases hf with (h | ⟨h1, h2⟩) | ⟨h1, h2⟩
  · rw [← h]; exact ha
  · subst h2; decide
  · subst h2; decide

/-- The hook respects the lock / tenant-signature / status invariant. -/
theorem preSaveHook_lockTenant (now : Int) (k : Lease)
    (h : lockTenantStatusOk k = true) :
    lockTenantStatusOk (preSaveHook now k) = true := by
  obtain ⟨-, -, -, -, -, -, -, hsig, hlock, -, -, -, -⟩ := preSaveHook_fields now k
  have hs := preSaveHook_lazyFlip now k
  unfold lockTenantStatusOk bImp at h ⊢
  rw [hsig, hlock]
  by_cases hl : k.isLocked = true
  · rw [hl] at h ⊢
    simp only [Bool.not_true, Bool.false_or, Bool.and_eq_true] at h ⊢
    exact ⟨h.1, lazyFlip_locked _ _ hs h.2⟩
  · simp only [Bool.not_eq_true] at hl
    rw [hl]
    rfl

/-- The hook never touches depositStatus. -/
theorem preSaveHook_depositNotHeld (now : Int) (k : Lease)
    (h : depositNotHeld k = true) :
    depositNotHeld (preSaveHook now k) = true := by
  unfold depositNotHeld at h ⊢
  rw [(preSaveHook_fields now k).2.2.2.2.1]
  exact h

end CasaViva

namespace CasaViva

/-- Decidable equality of operation results, for concrete evaluation. -/
instance : DecidableEq (Except LeaseErr Lease) := fun a b =>
  match a, b with
  | .ok x, .ok y =>
    if h : x = y then isTrue (by rw [h])
    else isFalse (fun hc => h (Except.ok.inj hc))
  | .error x, .error y =>
    if h : x = y then isTrue (by rw [h])
    else isFalse (fun hc => h (Except.error.inj hc))
  | .ok _, .error _ => isFalse (fun hc => Except.noConfusion hc)
  | .error _, .ok _ => isFalse (fun hc => Except.noConfusion hc)

/-- A cancellable draft lease whose deposit has been paid. -/
def paidDraftLease : Lease := { baseLease with depositStatus := "paid" }

/-- Claim C5 (code_bug evidence): cancelling a lease with depositStatus paid
cannot persist: the controller writes depositStatus pending_refund and a
ledger entry of type refund, but neither value is in the corresponding enum
of lease.model.js, so Mongoose save() rejects the document and the
cancellation fails instead of recording the refund request. -/
theorem claim5_cancel_paid_deposit_rejected :
    cancelLease "L1" none 1000 paidDraftLease = .error .validation
    ∧ depositStatusEnum.contains "pending_refund" = false
    ∧ txTypeEnum.contains "refund" = false
    ∧ paidDraftLease.depositStatus = "paid"
    ∧ cancellableStatuses.contains paidDraftLease.status = true := by
  decide

/-- An expired lease holding a 1000 deposit. -/
def heldExpiredLease : Lease :=
  { baseLease with
    status := "expired"
    depositStatus := "held"
    securityDeposit := some 1000 }

/-- Claim C6 (counterexample): the claimed scenario (securityDeposit 1000,
deductions [200], returnedAmount 800) succeeds but sets depositStatus to
partially_returned, not returned as the claim states, because the controller
compares returnedAmount against securityDeposit, not against the
deduction-adjusted expected return. -/
theorem claim6_counterexample :
    mapOk (fun m => m.depositStatus)
      (processDepositReturn "L1" 800 [{ amount := 200 }] none none 1000
        heldExpiredLease)
      = some "partially_returned" := by
  decide

/-- Claim C6 (amended): with securityDeposit 1000, deductions [{amount 200}]
and returnedAmount 800 the call succeeds, appends one deduction entry and one
return entry, and sets depositStatus to partially_returned (800 < 1000); the
same call with returnedAmount 700 fails with the amount-mismatch error naming
the expected return 800 and appends no ledger entries. -/
theorem claim6_deposit_scenario :
    mapOk (fun m => (m.depositStatus,
        m.depositTransactions.map (fun t => (t.txType, t.amount))))
      (processDepositReturn "L1" 800 [{ amount := 200 }] none none 1000
        heldExpiredLease)
      = some ("partially_returned", [("deduction", 200), ("return", 800)])
    ∧ processDepositReturn "L1" 700 [{ amount := 200 }] none none 1000
        heldExpiredLease
      = .error (.app 400
          "Returned amount (700) does not match expected return (800)") := by
  decide

/-- Claim C10: cancelLease succeeds only from the six early statuses of its
findOne filter; any other status yields the 404 error and no state change. -/
theorem claim10_cancel_status_guard (l : Lease) (uid : String)
    (reason : Option String) (now : Int) :
    (cancellableStatuses.contains l.status = false →
      cancelLease uid reason now l
        = .error (.app 404 "Lease not found or cannot be cancelled"))
    ∧ (isOkE (cancelLease uid reason now l) = true →
      cancellableStatuses.contains l.status = true) := by
  constructor
  · intro h
    have h' : l.status ∉ cancellableStatuses := by simpa using h
    unfold cancelLease
    rw [if_pos]
    simp [h']
  · intro hok
    by_cases hc : cancellableStatuses.contains l.status = true
    · exact hc
    · exfalso
      simp only [Bool.not_eq_true] at hc
      have hc' : l.status ∉ cancellableStatuses := by simpa using hc
      unfold cancelLease at hok
      rw [if_pos] at hok
      · simp [isOkE] at hok
      · simp [hc']

/-- Witness for claim C10 on a concrete active (hence non-cancellable)
lease. -/
def activeLease : Lease := { baseLease with status := "active" }

theorem claim10_witness :
    cancellableStatuses.contains activeLease.status = false
    ∧ cancelLease "L1" none 1000 activeLease
      = .error (.app 404 "Lease not found or cannot be cancelled") :=
  ⟨by decide,
   (claim10_cancel_status_guard activeLease "L1" none 1000).1 (by decide)⟩

/-- Claim C1 (counterexample): on a draft lease with an empty landlord slot
the tenant signature does NOT fail with an ordering violation: it is written,
and the lease jumps to fully_executed and locks.  The ordering guard of
signLease only fires in the statuses sent_to_tenant and sent_to_landlord. -/
theorem claim1_counterexample :
    baseLease.signatures.landlord = none
    ∧ baseLease.status = "draft"
    ∧ mapOk (fun m => (m.signatures.tenant.isSome, m.status, m.isLocked))
        (signLease "T1" "data" "draw" none "url" "ip" "ua" 1000 baseLease)
      = some (true, "fully_executed", true) := by
  decide

/-- Claim C1 (amended): a tenant signing while the landlord slot is empty
fails with the status-specific ordering-violation error exactly when the
lease status is sent_to_tenant or sent_to_landlord (and then nothing is
persisted); in any other unlocked status the tenant signature goes through,
as the counterexample shows. -/
theorem claim1_tenant_sign_ordering (l : Lease) (uid sd sm url ip ua : String)
    (ts : Option String) (now : Int)
    (hsd : sd ≠ "") (hsm : sm ≠ "")
    (hdel : l.isDeleted = false) (hlock : l.isLocked = false)
    (hten : l.tenant = uid) (hland : l.landlord ≠ uid)
    (hlsig : l.signatures.landlord = none)
    (htsig : l.signatures.tenant = none)
    (hst : l.status = "sent_to_tenant" ∨ l.status = "sent_to_landlord") :
    signLease uid sd sm ts url ip ua now l
      = .error (.app 400 (orderingMsg l.status)) := by
  rcases hst with h | h <;>
    simp [signLease, orderingMsg, h, hsd, hsm, hdel, hlock, hten, hland,
      hlsig, htsig]

/-- Witness for claim C1 at a concrete sent_to_tenant lease. -/
def sentToTenantLease : Lease := { baseLease with status := "sent_to_tenant" }

theorem claim1_witness :
    sentToTenantLease.status = "sent_to_tenant"
    ∧ signLease "T1" "data" "draw" none "url" "ip" "ua" 1000 sentToTenantLease
      = .error (.app 400
          "Please review and approve the lease first before signing") :=
  ⟨by decide,
   claim1_tenant_sign_ordering sentToTenantLease "T1" "data" "draw" "url"
     "ip" "ua" none 1000 (by decide) (by decide) (by decide) (by decide)
     (by decide) (by decide) (by decide) (by decide) (Or.inl (by decide))⟩

end CasaViva

namespace CasaViva

/-- A fully signed, locked lease. -/
def lockedSig : SignatureRecord :=
  { signedAt := 5, signatureType := "draw", dataUrl := "u", typedText := none,
    ipAddress := "i", userAgent := "a" }

/-- A concrete locked (fully executed) lease. -/
def lockedLease : Lease :=
  { baseLease with
    status := "fully_executed"
    isLocked := true
    lockedAt := some 10
    signatures := { landlord := some lockedSig, tenant := some lockedSig } }

/-- Claim C3 (counterexample): updateLease has no isLocked check, so a
landlord update of rentAmount on a locked lease succeeds and changes the
field. -/
theorem claim3_counterexample :
    lockedLease.isLocked = true
    ∧ lockedLease.rentAmount = some 1200
    ∧ mapOk (fun m => m.rentAmount)
        (updateLease "L1" { rentAmount := some 999 } 1000 lockedLease)
      = some (some 999) := by
  decide

/-- Claim C3 (amended): the lock is only enforced by signLease (which fails
with the already-finalized error); updateLease performs no isLocked check, so
a landlord update changing rentAmount, startDate and endDate on a locked
lease succeeds and the new values persist. -/
theorem claim3_lock_not_enforced (l : Lease) (uid : String) (ra sd ed now : Int)
    (hdel : l.isDeleted = false) (hland : l.landlord = uid)
    (hlock : l.isLocked = true) (hval : validateLease l = true)
    (hra : 0 ≤ ra) :
    mapOk (fun m => (m.rentAmount, m.startDate, m.endDate))
      (updateLease uid
        { startDate := some sd, endDate := some ed, rentAmount := some ra }
        now l)
      = some (some ra, some sd, some ed)
    ∧ signLease uid "data" "draw" none "url" "ip" "ua" now l
      = .error (.app 400 "Lease already finalized") := by
  constructor
  · have hm : validateLease (applyTermFields
        { startDate := some sd, endDate := some ed, rentAmount := some ra }
        l) = true := by
      rw [validateLease_iff] at hval ⊢
      obtain ⟨h1, h2, h3, h4, h5, h6, h7, h8, h9, h10, h11⟩ := hval
      simp only [amountsOk, Bool.and_eq_true] at h11
      refine ⟨h1, h2, h3, h4, h5, h6, h7, h8, h9, h10, ?_⟩
      simp only [applyTermFields, amountsOk, nonNegOpt, Bool.and_eq_true]
      exact ⟨⟨⟨by simpa using hra, h11.1.1.2⟩, h11.1.2⟩, h11.2⟩
    unfold updateLease
    rw [if_neg]
    · simp only [hland, beq_self_eq_true, if_true]
      have hsave := saveLease_ok now _ hm
      obtain ⟨h1, h2, h3, -⟩ :=
        preSaveHook_fields now (applyTermFields
          { startDate := some sd, endDate := some ed, rentAmount := some ra }
          l)
      by_cases ht : l.tenant == uid <;>
        simp [updateWrite, hland, ht, strTruthy, hsave, mapOk, h1, h2, h3] <;>
        simp [applyTermFields]
    · simp [hdel, hland]
  · simp [signLease, hdel, hlock]

/-- Witness for claim C3 at the concrete locked lease. -/
theorem claim3_witness :
    lockedLease.isLocked = true
    ∧ (mapOk (fun m => (m.rentAmount, m.startDate, m.endDate))
        (updateLease "L1"
          { startDate := some 1, endDate := some 2, rentAmount := some 999 }
          1000 lockedLease)
        = some (some 999, some 1, some 2)
      ∧ signLease "L1" "data" "draw" none "url" "ip" "ua" 1000 lockedLease
        = .error (.app 400 "Lease already finalized")) :=
  ⟨by decide,
   claim3_lock_not_enforced lockedLease "L1" 999 1 2 1000 (by decide)
     (by decide) (by decide) (by decide) (by decide)⟩

end CasaViva

namespace CasaViva

/-- A lazy flip out of a status that is neither active nor fully_executed is
the identity. -/
theorem lazyFlip_fixed (a b : String) (h : lazyFlip a b = true)
    (h1 : a ≠ "active") (h2 : a ≠ "fully_executed") : b = a := by
  simp only [lazyFlip, Bool.or_eq_true, Bool.and_eq_true, beq_iff_eq] at h
  rcases h with (h | ⟨ha, _⟩) | ⟨ha, _⟩
  · exact h.symm
  · exact absurd ha h1
  · exact absurd ha h2

/-- The hook leaves the status of a lease unchanged unless it is active or
fully_executed. -/
theorem preSaveHook_status_fixed (now : Int) (k : Lease)
    (h1 : k.status ≠ "active") (h2 : k.status ≠ "fully_executed") :
    (preSaveHook now k).status = k.status :=
  lazyFlip_fixed _ _ (preSaveHook_lazyFlip now k) h1 h2

/-- The validation list of sendToTenant is empty exactly when both dates are
present, the rent is positive and the deposit is set. -/
theorem sendToTenantMissing_nil_iff (l : Lease) :
    (sendToTenantMissing l = [])
      ↔ (l.startDate.isSome && l.endDate.isSome
          && (match l.rentAmount with
              | some r => decide (0 < r)
              | none => false)
          && l.securityDeposit.isSome) = true := by
  unfold sendToTenantMissing
  cases l.startDate <;> cases l.endDate <;> cases l.securityDeposit <;>
    cases l.rentAmount <;> simp

/-- Claim C9: from a draft, sendToTenant by the landlord succeeds exactly
when startDate and endDate are present, rentAmount is positive and
securityDeposit is set (0 counts as set); on success the persisted status is
sent_to_tenant, and with any required field missing the call fails with the
400 error listing the missing fields (persisting nothing). -/
theorem claim9_send_to_tenant (l : Lease) (uid : String) (msg : Option String)
    (now : Int) (hdel : l.isDeleted = false) (hland : l.landlord = uid)
    (hst : l.status = "draft") (hval : validateLease l = true) :
    isOkE (sendToTenant uid msg now l)
      = (l.startDate.isSome && l.endDate.isSome
        && (match l.rentAmount with | some r => decide (0 < r) | none => false)
        && l.securityDeposit.isSome)
    ∧ (sendToTenantMissing l = [] →
        mapOk (fun m => m.status) (sendToTenant uid msg now l)
          = some "sent_to_tenant")
    ∧ (sendToTenantMissing l ≠ [] →
        sendToTenant uid msg now l
          = .error (.app 400 ("Cannot send lease. Missing: "
              ++ String.intercalate ", " (sendToTenantMissing l)))) := by
  have hmiss0 : sendToTenantMissing
      (resolveAllChanges "Changes implemented by landlord" now l)
      = sendToTenantMissing l := rfl
  by_cases hcase : sendToTenantMissing l = []
  · -- every required field present: the lease is persisted as sent_to_tenant
    have hflds := (sendToTenantMissing_nil_iff l).mp hcase
    have heq : ∀ m : Lease, validateLease m = true →
        m.status = "sent_to_tenant" →
        (isOkE (saveLease now m) = true
          ∧ mapOk (fun k => k.status) (saveLease now m)
              = some "sent_to_tenant") := by
      intro m hv hs
      rw [saveLease_ok now m hv]
      constructor
      · rfl
      · have := preSaveHook_status_fixed now m
          (by rw [hs]; decide) (by rw [hs]; decide)
        simp [mapOk, this, hs]
    have hred : sendToTenant uid msg now l
        = saveLease now (if strTruthy msg = true then
            pushMsg uid (msg.getD "") now
              { resolveAllChanges "Changes implemented by landlord" now l with
                status := "sent_to_tenant"
                statusHistory := (resolveAllChanges
                    "Changes implemented by landlord" now l).statusHistory ++
                  [{ status := "sent_to_tenant", changedBy := uid,
                     reason := "Lease sent to tenant for review",
                     changedAt := now }] }
          else
            { resolveAllChanges "Changes implemented by landlord" now l with
              status := "sent_to_tenant"
              statusHistory := (resolveAllChanges
                  "Changes implemented by landlord" now l).statusHistory ++
                [{ status := "sent_to_tenant", changedBy := uid,
                   reason := "Lease sent to tenant for review",
                   changedAt := now }] }) := by
      simp only [sendToTenant]
      rw [if_neg (by simp [hdel, hland, hst]), if_neg (by simp [hmiss0, hcase])]
    have hvl : validateLease { l with status := "sent_to_tenant" } = true := by
      rw [validateLease_iff] at hval ⊢
      obtain ⟨-, h2, h3, h4, h5, h6, h7, h8, h9, h10, h11⟩ := hval
      exact ⟨rfl, h2, h3, h4, h5, h6, h7, h8, h9, h10, h11⟩
    refine ⟨?_, ?_, ?_⟩
    · rw [hflds, hred]
      by_cases hmsg : strTruthy msg = true
      · simp only [hmsg, if_true]
        refine (heq _ ?_ rfl).1
        exact hvl
      · simp only [hmsg, if_false]
        refine (heq _ ?_ rfl).1
        exact hvl
    · intro _
      rw [hred]
      by_cases hmsg : strTruthy msg = true
      · simp only [hmsg, if_true]
        refine (heq _ ?_ rfl).2
        exact hvl
      · simp only [hmsg, if_false]
        refine (heq _ ?_ rfl).2
        exact hvl
    · intro hne
      exact absurd hcase hne
  · -- a required field is missing: the call fails listing it
    have hred : sendToTenant uid msg now l
        = .error (.app 400 ("Cannot send lease. Missing: "
            ++ String.intercalate ", " (sendToTenantMissing l))) := by
      simp only [sendToTenant]
      rw [if_neg (by simp [hdel, hland, hst]), if_pos (by simp [hmiss0, hcase])]
      rw [hmiss0]
    refine ⟨?_, ?_, fun _ => hred⟩
    · have hfalse : (l.startDate.isSome && l.endDate.isSome
          && (match l.rentAmount with
              | some r => decide (0 < r) | none => false)
          && l.securityDeposit.isSome) = false := by
        rcases Bool.eq_false_or_eq_true (l.startDate.isSome && l.endDate.isSome
          && (match l.rentAmount with
              | some r => decide (0 < r) | none => false)
          && l.securityDeposit.isSome) with h | h
        · exact absurd ((sendToTenantMissing_nil_iff l).mpr h) hcase
        · exact h
      rw [hred, hfalse]
      rfl
    · intro hn
      exact absurd hn hcase

end CasaViva

namespace CasaViva

/-- Witness for claim C9: the base draft lease has all required fields, and
sending it persists status sent_to_tenant. -/
theorem claim9_witness :
    baseLease.status = "draft"
    ∧ mapOk (fun m => m.status) (sendToTenant "L1" none 1000 baseLease)
      = some "sent_to_tenant" :=
  ⟨by decide,
   (claim9_send_to_tenant baseLease "L1" none 1000 (by decide) (by decide)
     (by decide) (by decide)).2.1 (by decide)⟩

end CasaViva

namespace CasaViva

/-- expiryFlip does nothing off an active lease. -/
theorem expiryFlip_of_ne (now : Int) (l : Lease) (h : l.status ≠ "active") :
    expiryFlip now l = l := by
  unfold expiryFlip
  rw [if_neg]
  simp [h]

/-- moveInFlip does nothing off a fully_executed lease. -/
theorem moveInFlip_of_ne (now : Int) (l : Lease)
    (h : l.status ≠ "fully_executed") : moveInFlip now l = l := by
  unfold moveInFlip
  rw [if_neg]
  simp [h]

/-- renewalNoticeStep does nothing off an active lease. -/
theorem renewalNoticeStep_of_ne (now : Int) (l : Lease)
    (h : l.status ≠ "active") : renewalNoticeStep now l = l := by
  unfold renewalNoticeStep
  cases he : l.endDate with
  | none => rfl
  | some e =>
    dsimp only
    rw [if_neg]
    simp [h]

/-- Claim C8 (counterexample): the lazy derivation is not idempotent: a
fully_executed lease whose moveInDate and endDate have both passed becomes
active after one application of the pre-save hook and expired after two, so
applying the derivation twice does not equal applying it once. -/
def execPastEndLease : Lease :=
  { baseLease with
    status := "fully_executed"
    endDate := some 100
    metadata := { emptyMeta with moveInDate := some 50 } }

theorem claim8_counterexample :
    (preSaveHook 1000 execPastEndLease).status = "active"
    ∧ (preSaveHook 1000 (preSaveHook 1000 execPastEndLease)).status = "expired"
    ∧ preSaveHook 1000 (preSaveHook 1000 execPastEndLease)
      ≠ preSaveHook 1000 execPastEndLease := by
  decide

/-- Claim C8 (amended): on a lease that is already active the lazy
derivation is idempotent (a second application at the same instant changes
nothing), and the derivation never appends statusHistory entries; but it is
not idempotent in general, as the counterexample shows (fully_executed past
moveInDate and endDate advances one state per application). -/
theorem claim8_hook_idempotent_on_active (l : Lease) (now : Int)
    (h : l.status = "active") :
    preSaveHook now (preSaveHook now l) = preSaveHook now l
    ∧ (preSaveHook now l).statusHistory = l.statusHistory := by
  refine ⟨?_, (preSaveHook_fields now l).2.2.2.2.2.2.1⟩
  unfold preSaveHook
  by_cases hc : ((match l.endDate with
      | some e => decide (now > e)
      | none => false) && (l.status == "active")) = true
  · have he1 : expiryFlip now l = { l with status := "expired" } := by
      unfold expiryFlip
      rw [if_pos hc]
    rw [he1,
      moveInFlip_of_ne now { l with status := "expired" }
        (by exact (by decide : ("expired" : String) ≠ "fully_executed")),
      renewalNoticeStep_of_ne now { l with status := "expired" }
        (by exact (by decide : ("expired" : String) ≠ "active")),
      expiryFlip_of_ne now { l with status := "expired" }
        (by exact (by decide : ("expired" : String) ≠ "active")),
      moveInFlip_of_ne now { l with status := "expired" }
        (by exact (by decide : ("expired" : String) ≠ "fully_executed")),
      renewalNoticeStep_of_ne now { l with status := "expired" }
        (by exact (by decide : ("expired" : String) ≠ "active"))]
  · have he1 : expiryFlip now l = l := by
      unfold expiryFlip
      rw [if_neg hc]
    rw [he1, moveInFlip_of_ne now l (by rw [h]; decide)]
    cases he : l.endDate with
    | none =>
      have hr : renewalNoticeStep now l = l := by
        unfold renewalNoticeStep
        rw [he]
      rw [hr, he1, moveInFlip_of_ne now l (by rw [h]; decide), hr]
    | some e =>
      have hnow : decide (now > e) = false := by
        rw [he] at hc
        simp only [h] at hc
        simpa using hc
      by_cases hc3 : (decide (e - sixtyDaysMs ≤ now) && l.status == "active"
          && !(l.notices.any (fun n => n.noticeType == "renewal"))) = true
      · have hpush : renewalNoticeStep now l
            = { l with
                notices := l.notices ++
                  [{ noticeType := "renewal", givenBy := l.landlord,
                     givenAt := now, effectiveDate := e,
                     reason := some "Lease renewal notice", document := none,
                     acknowledged := false, acknowledgedAt := none }],
                renewal := { l.renewal with status := "pending" } } := by
          unfold renewalNoticeStep
          rw [he]
          dsimp only
          rw [if_pos hc3]
        rw [hpush]
        have he2 : expiryFlip now
            { l with
              notices := l.notices ++
                [{ noticeType := "renewal", givenBy := l.landlord,
                   givenAt := now, effectiveDate := e,
                   reason := some "Lease renewal notice", document := none,
                   acknowledged := false, acknowledgedAt := none }],
              renewal := { l.renewal with status := "pending" } }
            = { l with
                notices := l.notices ++
                  [{ noticeType := "renewal", givenBy := l.landlord,
                     givenAt := now, effectiveDate := e,
                     reason := some "Lease renewal notice", document := none,
                     acknowledged := false, acknowledgedAt := none }],
                renewal := { l.renewal with status := "pending" } } := by
          unfold expiryFlip
          rw [if_neg]
          simp [he, hnow]
        rw [he2,
          moveInFlip_of_ne now _ (by
            show l.status ≠ "fully_executed"
            rw [h]; decide)]
        unfold renewalNoticeStep
        dsimp only
        rw [he]
        dsimp only
        rw [if_neg]
        simp
      · have hnopush : renewalNoticeStep now l = l := by
          unfold renewalNoticeStep
          rw [he]
          dsimp only
          rw [if_neg hc3]
        rw [hnopush, he1, moveInFlip_of_ne now l (by rw [h]; decide), hnopush]

/-- Witness for claim C8 at a concrete active lease. -/
theorem claim8_witness :
    activeLease.status = "active"
    ∧ (preSaveHook 1000 (preSaveHook 1000 activeLease)
        = preSaveHook 1000 activeLease
      ∧ (preSaveHook 1000 activeLease).statusHistory
        = activeLease.statusHistory) :=
  ⟨by decide, claim8_hook_idempotent_on_active activeLease 1000 (by decide)⟩

end CasaViva

namespace CasaViva

/-- A lease whose status is outside the fully_executed-or-later set cannot be
locked when the lock invariant holds. -/
theorem unlocked_of_status_notin (l : Lease) (h : lockTenantStatusOk l = true)
    (hs : lockedStatuses.contains l.status = false) : l.isLocked = false := by
  rcases Bool.eq_false_or_eq_true l.isLocked with hl | hl
  · exfalso
    rw [lockTenantStatusOk, bImp, hl] at h
    simp only [Bool.not_true, Bool.false_or, Bool.and_eq_true] at h
    rw [h.2] at hs
    simp at hs
  · exact hl

/-- The cancellable statuses are all before full execution. -/
theorem lockedStatuses_not_cancellable (s : String)
    (h : cancellableStatuses.contains s = true) :
    lockedStatuses.contains s = false := by
  have h' : s ∈ cancellableStatuses := by simpa using h
  fin_cases h' <;> decide

/-- The draft-editing statuses are all before full execution. -/
theorem lockedStatuses_not_draftPhase (s : String)
    (h : (["approved", "draft", "changes_requested"] : List String).contains s
      = true) : lockedStatuses.contains s = false := by
  have h' : s ∈ (["approved", "draft", "changes_requested"] : List String) :=
    by simpa using h
  fin_cases h' <;> decide

/-- The sendable statuses are all before full execution. -/
theorem lockedStatuses_not_sendPhase (s : String)
    (h : (["draft", "changes_requested"] : List String).contains s = true) :
    lockedStatuses.contains s = false := by
  have h' : s ∈ (["draft", "changes_requested"] : List String) := by simpa using h
  fin_cases h' <;> decide

/-- Appending an entry always changes the history list. -/
theorem statusHistory_append_ne (h : List HistoryEntry) (e : HistoryEntry) :
    ((h ++ [e]) == h) = false := by
  rw [beq_eq_false_iff_ne]
  intro hc
  have := congrArg List.length hc
  simp at this

/-- A persisted document whose controller step appended exactly one entry
recording its own status satisfies the history-step discipline. -/
theorem histStepOk_of_append (l M : Lease) (now : Int) (e : HistoryEntry)
    (hh : M.statusHistory = l.statusHistory ++ [e]) (hs : e.status = M.status) :
    histStepOk l (preSaveHook now M) = true := by
  have hist := (preSaveHook_fields now M).2.2.2.2.2.2.1
  have hflip := preSaveHook_lazyFlip now M
  unfold histStepOk
  rw [hist, hh,
    if_neg (by rw [statusHistory_append_ne]; exact Bool.false_ne_true)]
  rw [Bool.and_eq_true, Bool.and_eq_true]
  refine ⟨⟨?_, ?_⟩, ?_⟩
  · simp
  · rw [List.take_left]
    exact beq_self_eq_true _
  · rw [List.getLast?_concat]
    simp [hs, hflip]

/-- A persisted document whose controller step changed neither status nor
history satisfies the history-step discipline. -/
theorem histStepOk_of_id (l M : Lease) (now : Int)
    (hh : M.statusHistory = l.statusHistory) (hs : M.status = l.status) :
    histStepOk l (preSaveHook now M) = true := by
  have hist := (preSaveHook_fields now M).2.2.2.2.2.2.1
  have hflip := preSaveHook_lazyFlip now M
  unfold histStepOk
  rw [hist, hh, if_pos (beq_self_eq_true _)]
  rw [← hs]
  exact hflip

/-- A persisted document whose controller step appended the renewal-accept
entry without a transition satisfies the history-step discipline. -/
theorem histStepOk_of_accept (l M : Lease) (now : Int) (e : HistoryEntry)
    (hh : M.statusHistory = l.statusHistory ++ [e])
    (he : e.status = "active") (hr : e.reason = "Lease renewal accepted")
    (hs : M.status = l.status) :
    histStepOk l (preSaveHook now M) = true := by
  have hist := (preSaveHook_fields now M).2.2.2.2.2.2.1
  have hflip := preSaveHook_lazyFlip now M
  unfold histStepOk
  rw [hist, hh,
    if_neg (by rw [statusHistory_append_ne]; exact Bool.false_ne_true)]
  rw [Bool.and_eq_true, Bool.and_eq_true]
  refine ⟨⟨?_, ?_⟩, ?_⟩
  · simp
  · rw [List.take_left]
    exact beq_self_eq_true _
  · rw [List.getLast?_concat]
    simp [he, hr, ← hs, hflip]

/-- Saving is compatible with the history-step discipline. -/
theorem histStepE_save (l M : Lease) (now : Int)
    (hcore : histStepOk l (preSaveHook now M) = true) :
    histStepE l (saveLease now M) = true := by
  unfold saveLease
  split
  · exact hcore
  · rfl

end CasaViva

namespace CasaViva

theorem lockPres_scheduleMoveIn (uid : String) (t : Option Int) (now : Int)
    (l : Lease) (h : lockTenantStatusOk l = true) :
    presAfter lockTenantStatusOk (scheduleMoveInInspection uid t now l)
      = true := by
  unfold scheduleMoveInInspection
  repeat' split
  all_goals try rfl
  all_goals exact saveLease_pres _ now _ (fun _ => h) (preSaveHook_lockTenant now)

theorem notHeld_scheduleMoveIn (uid : String) (t : Option Int) (now : Int)
    (l : Lease) (h : depositNotHeld l = true) :
    presAfter depositNotHeld (scheduleMoveInInspection uid t now l) = true := by
  unfold scheduleMoveInInspection
  repeat' split
  all_goals try rfl
  all_goals exact saveLease_pres _ now _ (fun _ => h) (preSaveHook_depositNotHeld now)

theorem histStep_scheduleMoveIn (uid : String) (t : Option Int) (now : Int)
    (l : Lease) :
    histStepE l (scheduleMoveInInspection uid t now l) = true := by
  unfold scheduleMoveInInspection
  repeat' split
  all_goals try rfl
  all_goals exact histStepE_save _ _ _ (histStepOk_of_id _ _ _ rfl rfl)

theorem lockPres_scheduleMoveOut (uid : String) (t : Option Int) (now : Int)
    (l : Lease) (h : lockTenantStatusOk l = true) :
    presAfter lockTenantStatusOk (scheduleMoveOutInspection uid t now l)
      = true := by
  unfold scheduleMoveOutInspection
  repeat' split
  all_goals try rfl
  all_goals exact saveLease_pres _ now _ (fun _ => h) (preSaveHook_lockTenant now)

theorem notHeld_scheduleMoveOut (uid : String) (t : Option Int) (now : Int)
    (l : Lease) (h : depositNotHeld l = true) :
    presAfter depositNotHeld (scheduleMoveOutInspection uid t now l) = true := by
  unfold scheduleMoveOutInspection
  repeat' split
  all_goals try rfl
  all_goals exact saveLease_pres _ now _ (fun _ => h) (preSaveHook_depositNotHeld now)

theorem histStep_scheduleMoveOut (uid : String) (t : Option Int) (now : Int)
    (l : Lease) :
    histStepE l (scheduleMoveOutInspection uid t now l) = true := by
  unfold scheduleMoveOutInspection
  repeat' split
  all_goals try rfl
  all_goals exact histStepE_save _ _ _ (histStepOk_of_id _ _ _ rfl rfl)

theorem lockPres_deleteLease (uid : String) (now : Int) (l : Lease)
    (h : lockTenantStatusOk l = true) :
    presAfter lockTenantStatusOk (deleteLease uid now l) = true := by
  unfold deleteLease
  repeat' split
  all_goals try rfl
  all_goals exact saveLease_pres _ now _ (fun _ => h) (preSaveHook_lockTenant now)

theorem notHeld_deleteLease (uid : String) (now : Int) (l : Lease)
    (h : depositNotHeld l = true) :
    presAfter depositNotHeld (deleteLease uid now l) = true := by
  unfold deleteLease
  repeat' split
  all_goals try rfl
  all_goals exact saveLease_pres _ now _ (fun _ => h) (preSaveHook_depositNotHeld now)

theorem histStep_deleteLease (uid : String) (now : Int) (l : Lease) :
    histStepE l (deleteLease uid now l) = true := by
  unfold deleteLease
  repeat' split
  all_goals try rfl
  all_goals exact histStepE_save _ _ _ (histStepOk_of_id _ _ _ rfl rfl)

theorem lockPres_restoreLease (uid : String) (now : Int) (l : Lease)
    (h : lockTenantStatusOk l = true) :
    presAfter lockTenantStatusOk (restoreLease uid now l) = true := by
  unfold restoreLease
  repeat' split
  all_goals try rfl
  all_goals exact saveLease_pres _ now _ (fun _ => h) (preSaveHook_lockTenant now)

theorem notHeld_restoreLease (uid : String) (now : Int) (l : Lease)
    (h : depositNotHeld l = true) :
    presAfter depositNotHeld (restoreLease uid now l) = true := by
  unfold restoreLease
  repeat' split
  all_goals try rfl
  all_goals exact saveLease_pres _ now _ (fun _ => h) (preSaveHook_depositNotHeld now)

theorem histStep_restoreLease (uid : String) (now : Int) (l : Lease) :
    histStepE l (restoreLease uid now l) = true := by
  unfold restoreLease
  repeat' split
  all_goals try rfl
  all_goals exact histStepE_save _ _ _ (histStepOk_of_id _ _ _ rfl rfl)

theorem lockPres_processDepositReturn (uid : String) (r : Int)
    (ds : List Deduction) (d p : Option String) (now : Int) (l : Lease)
    (h : lockTenantStatusOk l = true) :
    presAfter lockTenantStatusOk (processDepositReturn uid r ds d p now l)
      = true := by
  unfold processDepositReturn
  dsimp only
  repeat' split
  all_goals try rfl
  all_goals exact saveLease_pres _ now _ (fun _ => h) (preSaveHook_lockTenant now)

theorem histStep_processDepositReturn (uid : String) (r : Int)
    (ds : List Deduction) (d p : Option String) (now : Int) (l : Lease) :
    histStepE l (processDepositReturn uid r ds d p now l) = true := by
  unfold processDepositReturn
  dsimp only
  repeat' split
  all_goals try rfl
  all_goals exact histStepE_save _ _ _ (histStepOk_of_id _ _ _ rfl rfl)

end CasaViva

namespace CasaViva

/-- Introduction form of the lock invariant. -/
theorem lockTenant_of_parts (m : Lease)
    (hcase : m.isLocked = false
      ∨ (m.signatures.tenant.isSome = true
          ∧ lockedStatuses.contains m.status = true)) :
    lockTenantStatusOk m = true := by
  unfold lockTenantStatusOk bImp
  rcases hcase with h | ⟨h1, h2⟩
  · rw [h]; rfl
  · rw [h1, h2]; simp

/-- Elimination form of the lock invariant. -/
theorem lockTenant_parts (m : Lease) (h : lockTenantStatusOk m = true) :
    m.isLocked = false
      ∨ (m.signatures.tenant.isSome = true
          ∧ lockedStatuses.contains m.status = true) := by
  unfold lockTenantStatusOk bImp at h
  rcases Bool.eq_false_or_eq_true m.isLocked with hl | hl
  · right
    rw [hl] at h
    simpa using h
  · left
    exact hl

theorem lockPres_reviewApplication (lid act : String) (rsn : Option String)
    (now : Int) (l : Lease) (h : lockTenantStatusOk l = true) :
    presAfter lockTenantStatusOk (reviewApplication lid act rsn now l)
      = true := by
  unfold reviewApplication
  dsimp only
  repeat' split
  all_goals try rfl
  all_goals
    refine saveLease_pres _ now _
      (fun _ => lockTenant_of_parts _ (Or.inl ?_)) (preSaveHook_lockTenant now)
  all_goals
    rcases lockTenant_parts l h with hl | ⟨h1, h2⟩
  all_goals try exact hl
  all_goals (exfalso; simp_all [lockedStatuses])

theorem notHeld_reviewApplication (lid act : String) (rsn : Option String)
    (now : Int) (l : Lease) (h : depositNotHeld l = true) :
    presAfter depositNotHeld (reviewApplication lid act rsn now l) = true := by
  unfold reviewApplication
  dsimp only
  repeat' split
  all_goals try rfl
  all_goals first
    | exact saveLease_pres _ now _ (fun _ => rfl) (preSaveHook_depositNotHeld now)
    | exact saveLease_pres _ now _ (fun _ => h) (preSaveHook_depositNotHeld now)

theorem histStep_reviewApplication (lid act : String) (rsn : Option String)
    (now : Int) (l : Lease) :
    histStepE l (reviewApplication lid act rsn now l) = true := by
  unfold reviewApplication
  dsimp only
  repeat' split
  all_goals try rfl
  all_goals first
    | exact histStepE_save _ _ _ (histStepOk_of_id _ _ _ rfl rfl)
    | exact histStepE_save _ _ _ (histStepOk_of_append _ _ _ _ rfl rfl)

end CasaViva

namespace CasaViva

theorem lockPres_approveRequest (uid : String) (pp : Option Int) (now : Int)
    (l : Lease) (h : lockTenantStatusOk l = true) :
    presAfter lockTenantStatusOk (approveRequest uid pp now l) = true := by
  unfold approveRequest
  dsimp only
  repeat' split
  all_goals try rfl
  all_goals
    refine saveLease_pres _ now _
      (fun _ => lockTenant_of_parts _ (Or.inl ?_)) (preSaveHook_lockTenant now)
  all_goals
    rcases lockTenant_parts l h with hl | ⟨h1, h2⟩
  all_goals try exact hl
  all_goals (exfalso; simp_all [lockedStatuses])

theorem notHeld_approveRequest (uid : String) (pp : Option Int) (now : Int)
    (l : Lease) (h : depositNotHeld l = true) :
    presAfter depositNotHeld (approveRequest uid pp now l) = true := by
  unfold approveRequest
  dsimp only
  repeat' split
  all_goals try rfl
  all_goals exact saveLease_pres _ now _ (fun _ => h) (preSaveHook_depositNotHeld now)

theorem histStep_approveRequest (uid : String) (pp : Option Int) (now : Int)
    (l : Lease) :
    histStepE l (approveRequest uid pp now l) = true := by
  unfold approveRequest
  dsimp only
  repeat' split
  all_goals try rfl
  all_goals first
    | exact histStepE_save _ _ _ (histStepOk_of_id _ _ _ rfl rfl)
    | exact histStepE_save _ _ _ (histStepOk_of_append _ _ _ _ rfl rfl)

theorem lockPres_createOrUpdateDraft (uid : String) (u : UpdateBody) (now : Int)
    (l : Lease) (h : lockTenantStatusOk l = true) :
    presAfter lockTenantStatusOk (createOrUpdateDraft uid u now l) = true := by
  unfold createOrUpdateDraft
  dsimp only
  repeat' split
  all_goals try rfl
  all_goals
    refine saveLease_pres _ now _
      (fun _ => lockTenant_of_parts _ (Or.inl ?_)) (preSaveHook_lockTenant now)
  all_goals
    rcases lockTenant_parts l h with hl | ⟨h1, h2⟩
  all_goals try exact hl
  all_goals exfalso
  all_goals
    have h3 : l.status = "fully_executed" ∨ l.status = "active"
        ∨ l.status = "renewal_pending" ∨ l.status = "notice_given"
        ∨ l.status = "move_out_scheduled" ∨ l.status = "expired"
        ∨ l.status = "terminated" := by
      simpa [lockedStatuses] using h2
  all_goals rcases h3 with h3 | h3 | h3 | h3 | h3 | h3 | h3 <;> simp_all

theorem notHeld_createOrUpdateDraft (uid : String) (u : UpdateBody) (now : Int)
    (l : Lease) (h : depositNotHeld l = true) :
    presAfter depositNotHeld (createOrUpdateDraft uid u now l) = true := by
  unfold createOrUpdateDraft
  dsimp only
  repeat' split
  all_goals try rfl
  all_goals exact saveLease_pres _ now _ (fun _ => h) (preSaveHook_depositNotHeld now)

theorem histStep_createOrUpdateDraft (uid : String) (u : UpdateBody) (now : Int)
    (l : Lease) :
    histStepE l (createOrUpdateDraft uid u now l) = true := by
  unfold createOrUpdateDraft
  dsimp only
  repeat' split
  all_goals try rfl
  all_goals first
    | exact histStepE_save _ _ _ (histStepOk_of_id _ _ _ rfl rfl)
    | exact histStepE_save _ _ _ (histStepOk_of_append _ _ _ _ rfl rfl)

theorem lockPres_sendToTenant (uid : String) (msg : Option String) (now : Int)
    (l : Lease) (h : lockTenantStatusOk l = true) :
    presAfter lockTenantStatusOk (sendToTenant uid msg now l) = true := by
  unfold sendToTenant
  dsimp only
  repeat' split
  all_goals try rfl
  all_goals
    refine saveLease_pres _ now _
      (fun _ => lockTenant_of_parts _ (Or.inl ?_)) (preSaveHook_lockTenant now)
  all_goals
    rcases lockTenant_parts l h with hl | ⟨h1, h2⟩
  all_goals try exact hl
  all_goals exfalso
  all_goals
    have h3 : l.status = "fully_executed" ∨ l.status = "active"
        ∨ l.status = "renewal_pending" ∨ l.status = "notice_given"
        ∨ l.status = "move_out_scheduled" ∨ l.status = "expired"
        ∨ l.status = "terminated" := by
      simpa [lockedStatuses] using h2
  all_goals rcases h3 with h3 | h3 | h3 | h3 | h3 | h3 | h3 <;> simp_all

theorem notHeld_sendToTenant (uid : String) (msg : Option String) (now : Int)
    (l : Lease) (h : depositNotHeld l = true) :
    presAfter depositNotHeld (sendToTenant uid msg now l) = true := by
  unfold sendToTenant
  dsimp only
  repeat' split
  all_goals try rfl
  all_goals exact saveLease_pres _ now _ (fun _ => h) (preSaveHook_depositNotHeld now)

theorem histStep_sendToTenant (uid : String) (msg : Option String) (now : Int)
    (l : Lease) :
    histStepE l (sendToTenant uid msg now l) = true := by
  unfold sendToTenant
  dsimp only
  repeat' split
  all_goals try rfl
  all_goals first
    | exact histStepE_save _ _ _ (histStepOk_of_id _ _ _ rfl rfl)
    | exact histStepE_save _ _ _ (histStepOk_of_append _ _ _ _ rfl rfl)

theorem lockPres_requestChanges (uid : String) (changes : Option String)
    (now : Int) (l : Lease) (h : lockTenantStatusOk l = true) :
    presAfter lockTenantStatusOk (requestChanges uid changes now l) = true := by
  unfold requestChanges
  dsimp only
  repeat' split
  all_goals try rfl
  all_goals
    refine saveLease_pres _ now _
      (fun _ => lockTenant_of_parts _ (Or.inl ?_)) (preSaveHook_lockTenant now)
  all_goals
    rcases lockTenant_parts l h with hl | ⟨h1, h2⟩
  all_goals try exact hl
  all_goals (exfalso; simp_all [lockedStatuses])

theorem notHeld_requestChanges (uid : String) (changes : Option String)
    (now : Int) (l : Lease) (h : depositNotHeld l = true) :
    presAfter depositNotHeld (requestChanges uid changes now l) = true := by
  unfold requestChanges
  dsimp only
  repeat' split
  all_goals try rfl
  all_goals exact saveLease_pres _ now _ (fun _ => h) (preSaveHook_depositNotHeld now)

theorem histStep_requestChanges (uid : String) (changes : Option String)
    (now : Int) (l : Lease) :
    histStepE l (requestChanges uid changes now l) = true := by
  unfold requestChanges
  dsimp only
  repeat' split
  all_goals try rfl
  all_goals first
    | exact histStepE_save _ _ _ (histStepOk_of_id _ _ _ rfl rfl)
    | exact histStepE_save _ _ _ (histStepOk_of_append _ _ _ _ rfl rfl)

theorem lockPres_tenantReviewLease (uid act : String)
    (changes msg : Option String) (now : Int) (l : Lease)
    (h : lockTenantStatusOk l = true) :
    presAfter lockTenantStatusOk (tenantReviewLease uid act changes msg now l)
      = true := by
  unfold tenantReviewLease
  dsimp only
  repeat' split
  all_goals try rfl
  all_goals
    refine saveLease_pres _ now _
      (fun _ => lockTenant_of_parts _ (Or.inl ?_)) (preSaveHook_lockTenant now)
  all_goals
    rcases lockTenant_parts l h with hl | ⟨h1, h2⟩
  all_goals try exact hl
  all_goals (exfalso; simp_all [lockedStatuses])

theorem notHeld_tenantReviewLease (uid act : String)
    (changes msg : Option String) (now : Int) (l : Lease)
    (h : depositNotHeld l = true) :
    presAfter depositNotHeld (tenantReviewLease uid act changes msg now l)
      = true := by
  unfold tenantReviewLease
  dsimp only
  repeat' split
  all_goals try rfl
  all_goals exact saveLease_pres _ now _ (fun _ => h) (preSaveHook_depositNotHeld now)

theorem histStep_tenantReviewLease (uid act : String)
    (changes msg : Option String) (now : Int) (l : Lease) :
    histStepE l (tenantReviewLease uid act changes msg now l) = true := by
  unfold tenantReviewLease
  dsimp only
  repeat' split
  all_goals try rfl
  all_goals first
    | exact histStepE_save _ _ _ (histStepOk_of_id _ _ _ rfl rfl)
    | exact histStepE_save _ _ _ (histStepOk_of_append _ _ _ _ rfl rfl)

theorem lockPres_sendToLandlordForSignature (uid : String)
    (msg : Option String) (now : Int) (l : Lease)
    (h : lockTenantStatusOk l = true) :
    presAfter lockTenantStatusOk (sendToLandlordForSignature uid msg now l)
      = true := by
  unfold sendToLandlordForSignature
  dsimp only
  repeat' split
  all_goals try rfl
  all_goals
    refine saveLease_pres _ now _
      (fun _ => lockTenant_of_parts _ (Or.inl ?_)) (preSaveHook_lockTenant now)
  all_goals
    rcases lockTenant_parts l h with hl | ⟨h1, h2⟩
  all_goals try exact hl
  all_goals (exfalso; simp_all [lockedStatuses])

theorem notHeld_sendToLandlordForSignature (uid : String)
    (msg : Option String) (now : Int) (l : Lease)
    (h : depositNotHeld l = true) :
    presAfter depositNotHeld (sendToLandlordForSignature uid msg now l)
      = true := by
  unfold sendToLandlordForSignature
  dsimp only
  repeat' split
  all_goals try rfl
  all_goals exact saveLease_pres _ now _ (fun _ => h) (preSaveHook_depositNotHeld now)

theorem histStep_sendToLandlordForSignature (uid : String)
    (msg : Option String) (now : Int) (l : Lease) :
    histStepE l (sendToLandlordForSignature uid msg now l) = true := by
  unfold sendToLandlordForSignature
  dsimp only
  repeat' split
  all_goals try rfl
  all_goals first
    | exact histStepE_save _ _ _ (histStepOk_of_id _ _ _ rfl rfl)
    | exact histStepE_save _ _ _ (histStepOk_of_append _ _ _ _ rfl rfl)

end CasaViva

namespace CasaViva

theorem lockPres_cancelLease (uid : String) (rsn : Option String) (now : Int)
    (l : Lease) (h : lockTenantStatusOk l = true) :
    presAfter lockTenantStatusOk (cancelLease uid rsn now l) = true := by
  unfold cancelLease
  dsimp only
  split
  · rfl
  · rename_i hguard
    have hcanc : cancellableStatuses.contains l.status = true := by
      rcases Bool.eq_false_or_eq_true (cancellableStatuses.contains l.status)
        with hc | hc
      · exact hc
      · exact absurd (by rw [hc]; simp) hguard
    have hl0 : l.isLocked = false :=
      unlocked_of_status_notin l h (lockedStatuses_not_cancellable _ hcanc)
    repeat' split
    all_goals
      exact saveLease_pres _ now _
        (fun _ => lockTenant_of_parts _ (Or.inl hl0)) (preSaveHook_lockTenant now)

theorem notHeld_cancelLease (uid : String) (rsn : Option String) (now : Int)
    (l : Lease) (h : depositNotHeld l = true) :
    presAfter depositNotHeld (cancelLease uid rsn now l) = true := by
  unfold cancelLease
  dsimp only
  repeat' split
  all_goals try rfl
  all_goals first
    | exact saveLease_pres _ now _ (fun _ => rfl) (preSaveHook_depositNotHeld now)
    | exact saveLease_pres _ now _ (fun _ => h) (preSaveHook_depositNotHeld now)

theorem histStep_cancelLease (uid : String) (rsn : Option String) (now : Int)
    (l : Lease) :
    histStepE l (cancelLease uid rsn now l) = true := by
  unfold cancelLease
  dsimp only
  repeat' split
  all_goals try rfl
  all_goals first
    | exact histStepE_save _ _ _ (histStepOk_of_id _ _ _ rfl rfl)
    | exact histStepE_save _ _ _ (histStepOk_of_append _ _ _ _ rfl rfl)

theorem lockPres_giveNotice (uid nk : String) (eff : Option Int)
    (rsn doc : Option String) (now : Int) (l : Lease)
    (h : lockTenantStatusOk l = true) :
    presAfter lockTenantStatusOk (giveNotice uid nk eff rsn doc now l)
      = true := by
  unfold giveNotice
  dsimp only
  repeat' split
  all_goals try rfl
  all_goals
    refine saveLease_pres _ now _
      (fun _ => lockTenant_of_parts _ ?_) (preSaveHook_lockTenant now)
  all_goals rcases lockTenant_parts l h with hl | ⟨h1, h2⟩
  all_goals first
    | exact Or.inl hl
    | exact Or.inr ⟨h1, rfl⟩
    | exact Or.inr ⟨h1, h2⟩

theorem notHeld_giveNotice (uid nk : String) (eff : Option Int)
    (rsn doc : Option String) (now : Int) (l : Lease)
    (h : depositNotHeld l = true) :
    presAfter depositNotHeld (giveNotice uid nk eff rsn doc now l) = true := by
  unfold giveNotice
  dsimp only
  repeat' split
  all_goals try rfl
  all_goals exact saveLease_pres _ now _ (fun _ => h) (preSaveHook_depositNotHeld now)

theorem histStep_giveNotice (uid nk : String) (eff : Option Int)
    (rsn doc : Option String) (now : Int) (l : Lease) :
    histStepE l (giveNotice uid nk eff rsn doc now l) = true := by
  unfold giveNotice
  dsimp only
  repeat' split
  all_goals try rfl
  all_goals first
    | exact histStepE_save _ _ _ (histStepOk_of_id _ _ _ rfl rfl)
    | exact histStepE_save _ _ _ (histStepOk_of_append _ _ _ _ rfl rfl)

theorem lockPres_conductMoveInInspection (uid : String) (rep : Option String)
    (photos : List String) (now : Int) (l : Lease)
    (h : lockTenantStatusOk l = true) :
    presAfter lockTenantStatusOk (conductMoveInInspection uid rep photos now l)
      = true := by
  unfold conductMoveInInspection
  dsimp only
  repeat' split
  all_goals try rfl
  all_goals
    refine saveLease_pres _ now _
      (fun _ => lockTenant_of_parts _ ?_) (preSaveHook_lockTenant now)
  all_goals rcases lockTenant_parts l h with hl | ⟨h1, h2⟩
  all_goals first
    | exact Or.inl hl
    | exact Or.inr ⟨h1, rfl⟩
    | exact Or.inr ⟨h1, h2⟩

theorem notHeld_conductMoveInInspection (uid : String) (rep : Option String)
    (photos : List String) (now : Int) (l : Lease)
    (h : depositNotHeld l = true) :
    presAfter depositNotHeld (conductMoveInInspection uid rep photos now l)
      = true := by
  unfold conductMoveInInspection
  dsimp only
  repeat' split
  all_goals try rfl
  all_goals exact saveLease_pres _ now _ (fun _ => h) (preSaveHook_depositNotHeld now)

theorem histStep_conductMoveInInspection (uid : String) (rep : Option String)
    (photos : List String) (now : Int) (l : Lease) :
    histStepE l (conductMoveInInspection uid rep photos now l) = true := by
  unfold conductMoveInInspection
  dsimp only
  repeat' split
  all_goals try rfl
  all_goals first
    | exact histStepE_save _ _ _ (histStepOk_of_id _ _ _ rfl rfl)
    | exact histStepE_save _ _ _ (histStepOk_of_append _ _ _ _ rfl rfl)

theorem lockPres_respondToRenewal (tid act : String) (nra ned : Option Int)
    (now : Int) (l : Lease) (h : lockTenantStatusOk l = true) :
    presAfter lockTenantStatusOk (respondToRenewal tid act nra ned now l)
      = true := by
  unfold respondToRenewal
  dsimp only
  repeat' split
  all_goals try rfl
  all_goals
    refine saveLease_pres _ now _
      (fun _ => lockTenant_of_parts _ ?_) (preSaveHook_lockTenant now)
  all_goals rcases lockTenant_parts l h with hl | ⟨h1, h2⟩
  all_goals first
    | exact Or.inl hl
    | exact Or.inr ⟨h1, rfl⟩
    | exact Or.inr ⟨h1, h2⟩

theorem notHeld_respondToRenewal (tid act : String) (nra ned : Option Int)
    (now : Int) (l : Lease) (h : depositNotHeld l = true) :
    presAfter depositNotHeld (respondToRenewal tid act nra ned now l)
      = true := by
  unfold respondToRenewal
  dsimp only
  repeat' split
  all_goals try rfl
  all_goals exact saveLease_pres _ now _ (fun _ => h) (preSaveHook_depositNotHeld now)

theorem histStep_respondToRenewal (tid act : String) (nra ned : Option Int)
    (now : Int) (l : Lease) :
    histStepE l (respondToRenewal tid act nra ned now l) = true := by
  unfold respondToRenewal
  dsimp only
  repeat' split
  all_goals try rfl
  all_goals first
    | exact histStepE_save _ _ _ (histStepOk_of_id _ _ _ rfl rfl)
    | exact histStepE_save _ _ _ (histStepOk_of_append _ _ _ _ rfl rfl)
    | exact histStepE_save _ _ _ (histStepOk_of_accept _ _ _ _ rfl rfl rfl rfl)

/-- The tenant write of signWrite always yields a locked lease with tenant
signature and fully_executed status, so the amended lock invariant holds. -/
theorem lockTenant_signWrite_tenant (u m uid : String) (sig : SignatureRecord)
    (n1 n2 : Int) (l : Lease) :
    lockTenantStatusOk (pushMsg u m n2 (signWrite uid "tenant" sig n1 l))
      = true := by
  unfold signWrite pushMsg lockTenantStatusOk bImp
  dsimp only
  repeat' split
  all_goals first | rfl | simp_all

/-- The landlord write of signWrite never sets isLocked. -/
theorem lockTenant_signWrite_landlord (u m uid : String) (sig : SignatureRecord)
    (n1 n2 : Int) (l : Lease) (h : l.isLocked = false) :
    lockTenantStatusOk (pushMsg u m n2 (signWrite uid "landlord" sig n1 l))
      = true := by
  apply lockTenant_of_parts
  left
  unfold signWrite pushMsg
  dsimp only
  repeat' split
  all_goals first | exact h | simp_all

/-- signWrite never touches depositStatus. -/
theorem signWrite_depositStatus (uid role : String) (sig : SignatureRecord)
    (n1 : Int) (l : Lease) :
    (signWrite uid role sig n1 l).depositStatus = l.depositStatus := by
  unfold signWrite
  dsimp only
  repeat' split
  all_goals rfl

/-- History and status effect of the tenant write of signWrite. -/
theorem signWrite_tenant_parts (uid : String) (sig : SignatureRecord)
    (n1 : Int) (l : Lease) :
    (signWrite uid "tenant" sig n1 l).statusHistory
      = l.statusHistory ++
        [{ status := "fully_executed", changedBy := uid,
           reason := "Tenant signed, lease fully executed", changedAt := n1 }]
    ∧ (signWrite uid "tenant" sig n1 l).status = "fully_executed" := by
  unfold signWrite
  dsimp only
  repeat' split
  all_goals first
    | exact ⟨rfl, rfl⟩
    | simp_all

/-- History and status effect of the landlord write of signWrite: either the
signed_by_landlord transition with its entry, or no change at all. -/
theorem signWrite_landlord_parts (uid : String) (sig : SignatureRecord)
    (n1 : Int) (l : Lease) :
    ((signWrite uid "landlord" sig n1 l).statusHistory
        = l.statusHistory ++
          [{ status := "signed_by_landlord", changedBy := uid,
             reason := "Landlord signed the lease", changedAt := n1 }]
      ∧ (signWrite uid "landlord" sig n1 l).status = "signed_by_landlord")
    ∨ ((signWrite uid "landlord" sig n1 l).statusHistory = l.statusHistory
      ∧ (signWrite uid "landlord" sig n1 l).status = l.status) := by
  unfold signWrite
  dsimp only
  repeat' split
  all_goals first
    | exact Or.inl ⟨rfl, rfl⟩
    | exact Or.inr ⟨rfl, rfl⟩
    | simp_all

theorem histStep_signWrite_tenant (u m uid : String) (sig : SignatureRecord)
    (n1 n2 now : Int) (l : Lease) :
    histStepOk l
      (preSaveHook now (pushMsg u m n2 (signWrite uid "tenant" sig n1 l)))
      = true :=
  histStepOk_of_append _ _ _ _ (signWrite_tenant_parts uid sig n1 l).1
    (signWrite_tenant_parts uid sig n1 l).2.symm

theorem histStep_signWrite_landlord (u m uid : String) (sig : SignatureRecord)
    (n1 n2 now : Int) (l : Lease) :
    histStepOk l
      (preSaveHook now (pushMsg u m n2 (signWrite uid "landlord" sig n1 l)))
      = true := by
  rcases signWrite_landlord_parts uid sig n1 l with ⟨hh, hs⟩ | ⟨hh, hs⟩
  · exact histStepOk_of_append _ _ _ _ hh hs.symm
  · exact histStepOk_of_id _ _ _ hh hs

theorem lockPres_signLease (uid sd sm : String) (ts : Option String)
    (up ip ua : String) (now : Int) (l : Lease)
    (h : lockTenantStatusOk l = true) :
    presAfter lockTenantStatusOk (signLease uid sd sm ts up ip ua now l)
      = true := by
  unfold signLease
  dsimp only
  repeat' split
  all_goals try rfl
  all_goals first
    | exact saveLease_pres _ now _
        (fun _ => lockTenant_signWrite_tenant _ _ _ _ _ _ _)
        (preSaveHook_lockTenant now)
    | exact saveLease_pres _ now _
        (fun _ => lockTenant_signWrite_landlord _ _ _ _ _ _ _
          (Bool.eq_false_iff.mpr ‹¬(l.isLocked = true)›))
        (preSaveHook_lockTenant now)

/-- signWrite (wrapped in the signing message push) preserves a non-held
depositStatus. -/
theorem notHeld_signWrite (u m uid role : String) (sig : SignatureRecord)
    (n1 n2 : Int) (l : Lease) (h : depositNotHeld l = true) :
    depositNotHeld (pushMsg u m n2 (signWrite uid role sig n1 l)) = true := by
  unfold depositNotHeld
  rw [show (pushMsg u m n2 (signWrite uid role sig n1 l)).depositStatus
        = (signWrite uid role sig n1 l).depositStatus from rfl,
      signWrite_depositStatus]
  exact h

theorem notHeld_signLease (uid sd sm : String) (ts : Option String)
    (up ip ua : String) (now : Int) (l : Lease)
    (h : depositNotHeld l = true) :
    presAfter depositNotHeld (signLease uid sd sm ts up ip ua now l)
      = true := by
  unfold signLease
  dsimp only
  repeat' split
  all_goals try rfl
  all_goals
    exact saveLease_pres _ now _
      (fun _ => notHeld_signWrite _ _ _ _ _ _ _ _ h)
      (preSaveHook_depositNotHeld now)

theorem histStep_signLease (uid sd sm : String) (ts : Option String)
    (up ip ua : String) (now : Int) (l : Lease) :
    histStepE l (signLease uid sd sm ts up ip ua now l) = true := by
  unfold signLease
  dsimp only
  repeat' split
  all_goals try rfl
  all_goals
    first
      | exact histStepE_save _ _ _ (histStep_signWrite_landlord uid
          ("landlord" ++ " signed the lease agreement") uid
          (signatureRecordOf sm ts up ip ua now) now now now l)
      | exact histStepE_save _ _ _ (histStep_signWrite_tenant uid
          ("tenant" ++ " signed the lease agreement") uid
          (signatureRecordOf sm ts up ip ua now) now now now l)

end CasaViva

namespace CasaViva

/-- Any transition allowed by the updateLease table out of a locked-phase
status that also passes the schema status enum lands in a locked-phase
status again (the tenant targets accepted / declined are outside the
enum). -/
theorem allowedTransitions_locked (role s t : String)
    (hs : lockedStatuses.contains s = true)
    (ht : (allowedTransitions role s).contains t = true)
    (hv : statusEnum.contains t = true) :
    lockedStatuses.contains t = true := by
  have hs2 : s ∈ lockedStatuses := by simpa using hs
  by_cases hr : (role == "landlord") = true
  all_goals fin_cases hs2
  all_goals simp_all [allowedTransitions, lockedStatuses, statusEnum]
  all_goals first
    | (rcases ht with rfl | rfl <;> simp_all)
    | (rcases ht with rfl <;> simp_all)

/-- The write phase of updateLease preserves the amended lock invariant of
whatever lease it is given, provided that lease satisfies it whenever its
status passes the schema enum (the save validates the status anyway). -/
theorem updateWrite_lockPres (uid : String) (bl bt : Bool) (u : UpdateBody)
    (now : Int) (l1 : Lease)
    (hp : statusEnum.contains l1.status = true → lockTenantStatusOk l1 = true) :
    presAfter lockTenantStatusOk (updateWrite uid bl bt u now l1) = true := by
  unfold updateWrite
  dsimp only
  repeat' split
  all_goals
    refine saveLease_pres _ now _
      (fun hvv => lockTenant_of_parts _ ?_) (preSaveHook_lockTenant now)
  all_goals
    have hq := hp (validateLease_iff _ |>.mp hvv).1
  all_goals rcases lockTenant_parts l1 hq with hl | ⟨h1, h2⟩
  all_goals first
    | exact Or.inl hl
    | exact Or.inr ⟨h1, h2⟩

theorem updateWrite_notHeld (uid : String) (bl bt : Bool) (u : UpdateBody)
    (now : Int) (l1 : Lease) (h : depositNotHeld l1 = true) :
    presAfter depositNotHeld (updateWrite uid bl bt u now l1) = true := by
  unfold updateWrite
  dsimp only
  repeat' split
  all_goals exact saveLease_pres _ now _ (fun _ => h) (preSaveHook_depositNotHeld now)

theorem updateWrite_histStep_id (uid : String) (bl bt : Bool) (u : UpdateBody)
    (now : Int) (old l1 : Lease)
    (hh : l1.statusHistory = old.statusHistory) (hs : l1.status = old.status) :
    histStepE old (updateWrite uid bl bt u now l1) = true := by
  unfold updateWrite
  dsimp only
  repeat' split
  all_goals exact histStepE_save _ _ _ (histStepOk_of_id _ _ _ hh hs)

theorem updateWrite_histStep_append (uid : String) (bl bt : Bool)
    (u : UpdateBody) (now : Int) (old l1 : Lease) (e : HistoryEntry)
    (hh : l1.statusHistory = old.statusHistory ++ [e])
    (hs : e.status = l1.status) :
    histStepE old (updateWrite uid bl bt u now l1) = true := by
  unfold updateWrite
  dsimp only
  repeat' split
  all_goals exact histStepE_save _ _ _ (histStepOk_of_append _ _ _ _ hh hs)

theorem lockPres_updateLease (uid : String) (u : UpdateBody) (now : Int)
    (l : Lease) (h : lockTenantStatusOk l = true) :
    presAfter lockTenantStatusOk (updateLease uid u now l) = true := by
  unfold updateLease
  dsimp only
  repeat' split
  all_goals try rfl
  all_goals first
    | exact updateWrite_lockPres _ _ _ _ _ _ (fun _ => h)
    | (rename_i x3 s3 hu3 hr3 ht3
       exact updateWrite_lockPres _ _ _ _ _ _
         (fun hv => lockTenant_of_parts _
           ((lockTenant_parts l h).elim Or.inl
             (fun hc => Or.inr ⟨hc.1,
               allowedTransitions_locked _ l.status s3 hc.2 ht3 hv⟩))))

theorem notHeld_updateLease (uid : String) (u : UpdateBody) (now : Int)
    (l : Lease) (h : depositNotHeld l = true) :
    presAfter depositNotHeld (updateLease uid u now l) = true := by
  unfold updateLease
  dsimp only
  repeat' split
  all_goals try rfl
  all_goals exact updateWrite_notHeld _ _ _ _ _ _ h

theorem histStep_updateLease (uid : String) (u : UpdateBody) (now : Int)
    (l : Lease) :
    histStepE l (updateLease uid u now l) = true := by
  unfold updateLease
  dsimp only
  repeat' split
  all_goals try rfl
  all_goals first
    | exact updateWrite_histStep_id _ _ _ _ _ _ _ rfl rfl
    | exact updateWrite_histStep_append _ _ _ _ _ _ _ _ rfl rfl

end CasaViva

namespace CasaViva

/-- Introduction form of Boolean implication. -/
theorem bImp_of (a b : Bool) (h : a = true → b = true) : bImp a b = true := by
  cases a
  · rfl
  · simpa [bImp] using h rfl

theorem lockPres_createLease (tid pid : String) (pf : Bool) (ps oid : String)
    (price : Option Int) (msg : Option String) (ear : Bool) (now : Int) :
    presAfter lockTenantStatusOk
      (createLease tid pid pf ps oid price msg ear now) = true := by
  unfold createLease
  repeat' split
  all_goals try rfl
  all_goals exact saveLease_pres _ now _ (fun _ => rfl) (preSaveHook_lockTenant now)

theorem notHeld_createLease (tid pid : String) (pf : Bool) (ps oid : String)
    (price : Option Int) (msg : Option String) (ear : Bool) (now : Int) :
    presAfter depositNotHeld
      (createLease tid pid pf ps oid price msg ear now) = true := by
  unfold createLease
  repeat' split
  all_goals try rfl
  all_goals exact saveLease_pres _ now _ (fun _ => rfl) (preSaveHook_depositNotHeld now)

/-- A freshly created lease is persisted with at least one history entry. -/
theorem histInit_createLease (tid pid : String) (pf : Bool) (ps oid : String)
    (price : Option Int) (msg : Option String) (ear : Bool) (now : Int) :
    presAfter (fun m => decide (1 ≤ m.statusHistory.length))
      (createLease tid pid pf ps oid price msg ear now) = true := by
  unfold createLease
  repeat' split
  all_goals try rfl
  all_goals
    refine saveLease_pres _ now _ (fun _ => rfl) (fun k hk => ?_)
  all_goals
    show decide (1 ≤ (preSaveHook now k).statusHistory.length) = true
  all_goals
    rw [(preSaveHook_fields now k).2.2.2.2.2.2.1]
  all_goals exact hk

/-- After any successful deposit return the deposit is no longer held (the
held write of the zero-amount branch sits behind the zero-amount guard and
is dead). -/
theorem notHeld_out_processDepositReturn (uid : String) (r : Int)
    (ds : List Deduction) (d p : Option String) (now : Int) (l : Lease) :
    presAfter depositNotHeld (processDepositReturn uid r ds d p now l)
      = true := by
  unfold processDepositReturn
  dsimp only
  repeat' split
  all_goals try rfl
  all_goals first
    | exact saveLease_pres _ now _ (fun _ => rfl) (preSaveHook_depositNotHeld now)
    | simp_all

/-- With the deposit not held, processDepositReturn fails on its findOne
filter and nothing is persisted. -/
theorem processDepositReturn_notHeld_fails (uid : String) (r : Int)
    (ds : List Deduction) (d p : Option String) (now : Int) (l : Lease)
    (h : depositNotHeld l = true) :
    processDepositReturn uid r ds d p now l
      = .error (.app 404 "Lease not found or deposit not available for return")
      := by
  have h2 : (l.depositStatus != "held") = true := h
  have hc : (l.isDeleted || l.landlord != uid
      || !(["expired", "terminated"].contains l.status)
      || l.depositStatus != "held") = true := by simp [h2]
  unfold processDepositReturn
  rw [if_pos hc]

/-- A second deposit return after a successful one always fails. -/
theorem processDepositReturn_second (uid : String) (r : Int)
    (ds : List Deduction) (d p : Option String) (now : Int)
    (uid2 : String) (r2 : Int) (ds2 : List Deduction) (d2 p2 : Option String)
    (now2 : Int) (l m : Lease)
    (hok : processDepositReturn uid r ds d p now l = .ok m) :
    processDepositReturn uid2 r2 ds2 d2 p2 now2 m
      = .error (.app 404 "Lease not found or deposit not available for return")
      := by
  have h1 := notHeld_out_processDepositReturn uid r ds d p now l
  rw [hok] at h1
  exact processDepositReturn_notHeld_fails uid2 r2 ds2 d2 p2 now2 m h1

end CasaViva

namespace CasaViva

/-- Claim C2 (counterexample to the claim as stated): on a draft lease the
tenant can sign first; the persisted lease is locked with an empty landlord
signature slot, so isLocked does not imply both slots are populated. -/
theorem claim2_counterexample :
    lockSigStatusOk baseLease = true
    ∧ mapOk (fun m => (m.isLocked, m.signatures.landlord.isSome,
        lockSigStatusOk m))
        (signLease "T1" "data" "draw" none "url" "ip" "ua" 1000 baseLease)
      = some (true, false, false) := by decide

/-- Claim C2 (amended): the invariant the code maintains is weaker than
claimed: whenever a persisted lease has isLocked = true its tenant slot is
populated and its status is fully_executed or later; the landlord slot may
stay empty (see the counterexample).  The weaker invariant is preserved by
every operation of the module: creation establishes it and each of the other
eighteen controllers preserves it. -/
theorem claim2_lock_invariant :
    (∀ (tid pid : String) (pf : Bool) (ps oid : String) (price : Option Int)
        (msg : Option String) (ear : Bool) (now : Int),
      presAfter lockTenantStatusOk
        (createLease tid pid pf ps oid price msg ear now) = true)
    ∧ (∀ (lid act : String) (rsn : Option String) (now : Int) (l : Lease),
        bImp (lockTenantStatusOk l)
          (presAfter lockTenantStatusOk (reviewApplication lid act rsn now l))
          = true)
    ∧ (∀ (uid : String) (pp : Option Int) (now : Int) (l : Lease),
        bImp (lockTenantStatusOk l)
          (presAfter lockTenantStatusOk (approveRequest uid pp now l)) = true)
    ∧ (∀ (uid : String) (u : UpdateBody) (now : Int) (l : Lease),
        bImp (lockTenantStatusOk l)
          (presAfter lockTenantStatusOk (createOrUpdateDraft uid u now l))
          = true)
    ∧ (∀ (uid : String) (msg : Option String) (now : Int) (l : Lease),
        bImp (lockTenantStatusOk l)
          (presAfter lockTenantStatusOk (sendToTenant uid msg now l)) = true)
    ∧ (∀ (uid : String) (ch : Option String) (now : Int) (l : Lease),
        bImp (lockTenantStatusOk l)
          (presAfter lockTenantStatusOk (requestChanges uid ch now l)) = true)
    ∧ (∀ (uid act : String) (ch msg : Option String) (now : Int) (l : Lease),
        bImp (lockTenantStatusOk l)
          (presAfter lockTenantStatusOk
            (tenantReviewLease uid act ch msg now l)) = true)
    ∧ (∀ (uid : String) (msg : Option String) (now : Int) (l : Lease),
        bImp (lockTenantStatusOk l)
          (presAfter lockTenantStatusOk
            (sendToLandlordForSignature uid msg now l)) = true)
    ∧ (∀ (uid sd sm : String) (ts : Option String) (up ip ua : String)
          (now : Int) (l : Lease),
        bImp (lockTenantStatusOk l)
          (presAfter lockTenantStatusOk
            (signLease uid sd sm ts up ip ua now l)) = true)
    ∧ (∀ (uid : String) (u : UpdateBody) (now : Int) (l : Lease),
        bImp (lockTenantStatusOk l)
          (presAfter lockTenantStatusOk (updateLease uid u now l)) = true)
    ∧ (∀ (uid : String) (rsn : Option String) (now : Int) (l : Lease),
        bImp (lockTenantStatusOk l)
          (presAfter lockTenantStatusOk (cancelLease uid rsn now l)) = true)
    ∧ (∀ (uid : String) (now : Int) (l : Lease),
        bImp (lockTenantStatusOk l)
          (presAfter lockTenantStatusOk (deleteLease uid now l)) = true)
    ∧ (∀ (uid : String) (now : Int) (l : Lease),
        bImp (lockTenantStatusOk l)
          (presAfter lockTenantStatusOk (restoreLease uid now l)) = true)
    ∧ (∀ (uid : String) (t : Option Int) (now : Int) (l : Lease),
        bImp (lockTenantStatusOk l)
          (presAfter lockTenantStatusOk
            (scheduleMoveInInspection uid t now l)) = true)
    ∧ (∀ (uid : String) (rep : Option String) (photos : List String)
          (now : Int) (l : Lease),
        bImp (lockTenantStatusOk l)
          (presAfter lockTenantStatusOk
            (conductMoveInInspection uid rep photos now l)) = true)
    ∧ (∀ (uid nk : String) (eff : Option Int) (rsn doc : Option String)
          (now : Int) (l : Lease),
        bImp (lockTenantStatusOk l)
          (presAfter lockTenantStatusOk
            (giveNotice uid nk eff rsn doc now l)) = true)
    ∧ (∀ (tid act : String) (nra ned : Option Int) (now : Int) (l : Lease),
        bImp (lockTenantStatusOk l)
          (presAfter lockTenantStatusOk
            (respondToRenewal tid act nra ned now l)) = true)
    ∧ (∀ (uid : String) (t : Option Int) (now : Int) (l : Lease),
        bImp (lockTenantStatusOk l)
          (presAfter lockTenantStatusOk
            (scheduleMoveOutInspection uid t now l)) = true)
    ∧ (∀ (uid : String) (r : Int) (ds : List Deduction) (d p : Option String)
          (now : Int) (l : Lease),
        bImp (lockTenantStatusOk l)
          (presAfter lockTenantStatusOk
            (processDepositReturn uid r ds d p now l)) = true) :=
  ⟨fun tid pid pf ps oid price msg ear now =>
      lockPres_createLease tid pid pf ps oid price msg ear now,
   fun lid act rsn now l =>
      bImp_of _ _ (lockPres_reviewApplication lid act rsn now l),
   fun uid pp now l => bImp_of _ _ (lockPres_approveRequest uid pp now l),
   fun uid u now l => bImp_of _ _ (lockPres_createOrUpdateDraft uid u now l),
   fun uid msg now l => bImp_of _ _ (lockPres_sendToTenant uid msg now l),
   fun uid ch now l => bImp_of _ _ (lockPres_requestChanges uid ch now l),
   fun uid act ch msg now l =>
      bImp_of _ _ (lockPres_tenantReviewLease uid act ch msg now l),
   fun uid msg now l =>
      bImp_of _ _ (lockPres_sendToLandlordForSignature uid msg now l),
   fun uid sd sm ts up ip ua now l =>
      bImp_of _ _ (lockPres_signLease uid sd sm ts up ip ua now l),
   fun uid u now l => bImp_of _ _ (lockPres_updateLease uid u now l),
   fun uid rsn now l => bImp_of _ _ (lockPres_cancelLease uid rsn now l),
   fun uid now l => bImp_of _ _ (lockPres_deleteLease uid now l),
   fun uid now l => bImp_of _ _ (lockPres_restoreLease uid now l),
   fun uid t now l => bImp_of _ _ (lockPres_scheduleMoveIn uid t now l),
   fun uid rep photos now l =>
      bImp_of _ _ (lockPres_conductMoveInInspection uid rep photos now l),
   fun uid nk eff rsn doc now l =>
      bImp_of _ _ (lockPres_giveNotice uid nk eff rsn doc now l),
   fun tid act nra ned now l =>
      bImp_of _ _ (lockPres_respondToRenewal tid act nra ned now l),
   fun uid t now l => bImp_of _ _ (lockPres_scheduleMoveOut uid t now l),
   fun uid r ds d p now l =>
      bImp_of _ _ (lockPres_processDepositReturn uid r ds d p now l)⟩

end CasaViva

namespace CasaViva

/-- An active lease already past its end date. -/
def activePastEndLease : Lease :=
  { baseLease with status := "active", endDate := some 100 }

/-- Claim C4 (counterexample to the claim as stated): a message-only update
of an active lease past its end date persists the expired status through the
pre-save hook without appending any history entry, so this transition
appends zero entries and the last entry does not name the new status. -/
theorem claim4_counterexample :
    mapOk (fun m => (m.status, m.statusHistory.length,
        (m.statusHistory.getLast?).map (fun e => e.status)))
        (updateLease "L1" { message := some "note" } 1000 activePastEndLease)
      = some ("expired", 1, some "pending_request") := by decide

/-- Claim C4 (amended): creation persists at least one history entry, and
every controller transition appends exactly one entry naming the new status
or leaves history and status alone, except that the pre-save hook may flip
active to expired or fully_executed to active with no entry (see the
counterexample) and renewal acceptance appends an entry reading active
without changing the status; histStepE packages exactly this discipline. -/
theorem claim4_history_discipline :
    (∀ (tid pid : String) (pf : Bool) (ps oid : String) (price : Option Int)
        (msg : Option String) (ear : Bool) (now : Int),
      presAfter (fun m => decide (1 ≤ m.statusHistory.length))
        (createLease tid pid pf ps oid price msg ear now) = true)
    ∧ (∀ (lid act : String) (rsn : Option String) (now : Int) (l : Lease),
        histStepE l (reviewApplication lid act rsn now l) = true)
    ∧ (∀ (uid : String) (pp : Option Int) (now : Int) (l : Lease),
        histStepE l (approveRequest uid pp now l) = true)
    ∧ (∀ (uid : String) (u : UpdateBody) (now : Int) (l : Lease),
        histStepE l (createOrUpdateDraft uid u now l) = true)
    ∧ (∀ (uid : String) (msg : Option String) (now : Int) (l : Lease),
        histStepE l (sendToTenant uid msg now l) = true)
    ∧ (∀ (uid : String) (ch : Option String) (now : Int) (l : Lease),
        histStepE l (requestChanges uid ch now l) = true)
    ∧ (∀ (uid act : String) (ch msg : Option String) (now : Int) (l : Lease),
        histStepE l (tenantReviewLease uid act ch msg now l) = true)
    ∧ (∀ (uid : String) (msg : Option String) (now : Int) (l : Lease),
        histStepE l (sendToLandlordForSignature uid msg now l) = true)
    ∧ (∀ (uid sd sm : String) (ts : Option String) (up ip ua : String)
          (now : Int) (l : Lease),
        histStepE l (signLease uid sd sm ts up ip ua now l) = true)
    ∧ (∀ (uid : String) (u : UpdateBody) (now : Int) (l : Lease),
        histStepE l (updateLease uid u now l) = true)
    ∧ (∀ (uid : String) (rsn : Option String) (now : Int) (l : Lease),
        histStepE l (cancelLease uid rsn now l) = true)
    ∧ (∀ (uid : String) (now : Int) (l : Lease),
        histStepE l (deleteLease uid now l) = true)
    ∧ (∀ (uid : String) (now : Int) (l : Lease),
        histStepE l (restoreLease uid now l) = true)
    ∧ (∀ (uid : String) (t : Option Int) (now : Int) (l : Lease),
        histStepE l (scheduleMoveInInspection uid t now l) = true)
    ∧ (∀ (uid : String) (rep : Option String) (photos : List String)
          (now : Int) (l : Lease),
        histStepE l (conductMoveInInspection uid rep photos now l) = true)
    ∧ (∀ (uid nk : String) (eff : Option Int) (rsn doc : Option String)
          (now : Int) (l : Lease),
        histStepE l (giveNotice uid nk eff rsn doc now l) = true)
    ∧ (∀ (tid act : String) (nra ned : Option Int) (now : Int) (l : Lease),
        histStepE l (respondToRenewal tid act nra ned now l) = true)
    ∧ (∀ (uid : String) (t : Option Int) (now : Int) (l : Lease),
        histStepE l (scheduleMoveOutInspection uid t now l) = true)
    ∧ (∀ (uid : String) (r : Int) (ds : List Deduction) (d p : Option String)
          (now : Int) (l : Lease),
        histStepE l (processDepositReturn uid r ds d p now l) = true) :=
  ⟨histInit_createLease, histStep_reviewApplication, histStep_approveRequest,
   histStep_createOrUpdateDraft, histStep_sendToTenant,
   histStep_requestChanges, histStep_tenantReviewLease,
   histStep_sendToLandlordForSignature, histStep_signLease,
   histStep_updateLease, histStep_cancelLease, histStep_deleteLease,
   histStep_restoreLease, histStep_scheduleMoveIn,
   histStep_conductMoveInInspection, histStep_giveNotice,
   histStep_respondToRenewal, histStep_scheduleMoveOut,
   histStep_processDepositReturn⟩

end CasaViva

namespace CasaViva

/-- Claim C7: if the deposit is not held the return fails with the 404
filter error (and, errors persisting nothing, the ledger is untouched);
after any successful return the deposit is never held (the zero-amount held
write is dead behind the amount guard), no operation of the module ever
makes a deposit held again, and therefore a second return after a successful
one always fails with the same error. -/
theorem claim7_deposit_return_guard :
    (∀ (uid : String) (r : Int) (ds : List Deduction) (d p : Option String)
        (now : Int) (l : Lease),
      bImp (depositNotHeld l)
        (decide (processDepositReturn uid r ds d p now l
          = .error (.app 404
              "Lease not found or deposit not available for return"))) = true)
    ∧ (∀ (uid : String) (r : Int) (ds : List Deduction) (d p : Option String)
          (now : Int) (l : Lease),
        presAfter depositNotHeld (processDepositReturn uid r ds d p now l)
          = true)
    ∧ (∀ (uid : String) (r : Int) (ds : List Deduction) (d p : Option String)
          (now : Int) (uid2 : String) (r2 : Int) (ds2 : List Deduction)
          (d2 p2 : Option String) (now2 : Int) (l m : Lease),
        bImp (decide (processDepositReturn uid r ds d p now l = .ok m))
          (decide (processDepositReturn uid2 r2 ds2 d2 p2 now2 m
            = .error (.app 404
                "Lease not found or deposit not available for return")))
          = true)
    ∧ (∀ (tid pid : String) (pf : Bool) (ps oid : String) (price : Option Int)
          (msg : Option String) (ear : Bool) (now : Int),
        presAfter depositNotHeld
          (createLease tid pid pf ps oid price msg ear now) = true)
    ∧ (∀ (lid act : String) (rsn : Option String) (now : Int) (l : Lease),
        bImp (depositNotHeld l)
          (presAfter depositNotHeld (reviewApplication lid act rsn now l))
          = true)
    ∧ (∀ (uid : String) (pp : Option Int) (now : Int) (l : Lease),
        bImp (depositNotHeld l)
          (presAfter depositNotHeld (approveRequest uid pp now l)) = true)
    ∧ (∀ (uid : String) (u : UpdateBody) (now : Int) (l : Lease),
        bImp (depositNotHeld l)
          (presAfter depositNotHeld (createOrUpdateDraft uid u now l)) = true)
    ∧ (∀ (uid : String) (msg : Option String) (now : Int) (l : Lease),
        bImp (depositNotHeld l)
          (presAfter depositNotHeld (sendToTenant uid msg now l)) = true)
    ∧ (∀ (uid : String) (ch : Option String) (now : Int) (l : Lease),
        bImp (depositNotHeld l)
          (presAfter depositNotHeld (requestChanges uid ch now l)) = true)
    ∧ (∀ (uid act : String) (ch msg : Option String) (now : Int) (l : Lease),
        bImp (depositNotHeld l)
          (presAfter depositNotHeld (tenantReviewLease uid act ch msg now l))
          = true)
    ∧ (∀ (uid : String) (msg : Option String) (now : Int) (l : Lease),
        bImp (depositNotHeld l)
          (presAfter depositNotHeld
            (sendToLandlordForSignature uid msg now l)) = true)
    ∧ (∀ (uid sd sm : String) (ts : Option String) (up ip ua : String)
          (now : Int) (l : Lease),
        bImp (depositNotHeld l)
          (presAfter depositNotHeld (signLease uid sd sm ts up ip ua now l))
          = true)
    ∧ (∀ (uid : String) (u : UpdateBody) (now : Int) (l : Lease),
        bImp (depositNotHeld l)
          (presAfter depositNotHeld (updateLease uid u now l)) = true)
    ∧ (∀ (uid : String) (rsn : Option String) (now : Int) (l : Lease),
        bImp (depositNotHeld l)
          (presAfter depositNotHeld (cancelLease uid rsn now l)) = true)
    ∧ (∀ (uid : String) (now : Int) (l : Lease),
        bImp (depositNotHeld l)
          (presAfter depositNotHeld (deleteLease uid now l)) = true)
    ∧ (∀ (uid : String) (now : Int) (l : Lease),
        bImp (depositNotHeld l)
          (presAfter depositNotHeld (restoreLease uid now l)) = true)
    ∧ (∀ (uid : String) (t : Option Int) (now : Int) (l : Lease),
        bImp (depositNotHeld l)
          (presAfter depositNotHeld (scheduleMoveInInspection uid t now l))
          = true)
    ∧ (∀ (uid : String) (rep : Option String) (photos : List String)
          (now : Int) (l : Lease),
        bImp (depositNotHeld l)
          (presAfter depositNotHeld
            (conductMoveInInspection uid rep photos now l)) = true)
    ∧ (∀ (uid nk : String) (eff : Option Int) (rsn doc : Option String)
          (now : Int) (l : Lease),
        bImp (depositNotHeld l)
          (presAfter depositNotHeld (giveNotice uid nk eff rsn doc now l))
          = true)
    ∧ (∀ (tid act : String) (nra ned : Option Int) (now : Int) (l : Lease),
        bImp (depositNotHeld l)
          (presAfter depositNotHeld (respondToRenewal tid act nra ned now l))
          = true)
    ∧ (∀ (uid : String) (t : Option Int) (now : Int) (l : Lease),
        bImp (depositNotHeld l)
          (presAfter depositNotHeld (scheduleMoveOutInspection uid t now l))
          = true) :=
  ⟨fun uid r ds d p now l =>
      bImp_of _ _ (fun h => decide_eq_true
        (processDepositReturn_notHeld_fails uid r ds d p now l h)),
   notHeld_out_processDepositReturn,
   fun uid r ds d p now uid2 r2 ds2 d2 p2 now2 l m =>
      bImp_of _ _ (fun h => decide_eq_true
        (processDepositReturn_second uid r ds d p now uid2 r2 ds2 d2 p2 now2
          l m (of_decide_eq_true h))),
   notHeld_createLease,
   fun lid act rsn now l =>
      bImp_of _ _ (notHeld_reviewApplication lid act rsn now l),
   fun uid pp now l => bImp_of _ _ (notHeld_approveRequest uid pp now l),
   fun uid u now l => bImp_of _ _ (notHeld_createOrUpdateDraft uid u now l),
   fun uid msg now l => bImp_of _ _ (notHeld_sendToTenant uid msg now l),
   fun uid ch now l => bImp_of _ _ (notHeld_requestChanges uid ch now l),
   fun uid act ch msg now l =>
      bImp_of _ _ (notHeld_tenantReviewLease uid act ch msg now l),
   fun uid msg now l =>
      bImp_of _ _ (notHeld_sendToLandlordForSignature uid msg now l),
   fun uid sd sm ts up ip ua now l =>
      bImp_of _ _ (notHeld_signLease uid sd sm ts up ip ua now l),
   fun uid u now l => bImp_of _ _ (notHeld_updateLease uid u now l),
   fun uid rsn now l => bImp_of _ _ (notHeld_cancelLease uid rsn now l),
   fun uid now l => bImp_of _ _ (notHeld_deleteLease uid now l),
   fun uid now l => bImp_of _ _ (notHeld_restoreLease uid now l),
   fun uid t now l => bImp_of _ _ (notHeld_scheduleMoveIn uid t now l),
   fun uid rep photos now l =>
      bImp_of _ _ (notHeld_conductMoveInInspection uid rep photos now l),
   fun uid nk eff rsn doc now l =>
      bImp_of _ _ (notHeld_giveNotice uid nk eff rsn doc now l),
   fun tid act nra ned now l =>
      bImp_of _ _ (notHeld_respondToRenewal tid act nra ned now l),
   fun uid t now l => bImp_of _ _ (notHeld_scheduleMoveOut uid t now l)⟩

end CasaViva
